import Mathlib

/-!
NeiGin ray-tracing BVH: acceleration structures and their manager.

A shallow embedding of `NeiVu/AccelerationStructure.cpp`, `Scene/RaytracingBVH.{h,cpp}`,
the function `formatSize` of `NeiVu/Format.cpp` and the BVH part of
`Apps/RtxShadow/MainApp.cpp`.

* C++ objects are records, member functions take the record and return the new one.
* The command recorder (`CommandBuffer`) is the list of the commands recorded so far.
* `DeviceContext` is the device-side state the code changes (objects created and destroyed,
  buffers allocated, memory bound, the single-use command buffer).
* `Env` holds what the code reads from outside `src/`: the answers of the Vulkan device and
  two declarations of the absent `AccelerationStructure.h`.
* Machine integers are `Nat`; the narrowing cast `uint(x)` is `x % 2 ^ 32`.
* A failed assertion or a dereferenced null `Ptr` ends the call with a `Fault`; the state
  returned with it is the state reached when the fault was raised.
-/

namespace Nei

/-- The ways a call can fail. -/
inductive Fault where
  /-- The condition of a `nei_assert` / `assert` was false. -/
  | assertion
  /-- A null `Ptr` was dereferenced. -/
  | nullPointer
  /-- A vector was indexed past its end. -/
  | outOfRange
  deriving DecidableEq, Repr

/-- The cast `uint(x)` / `(uint)x`: narrowing to an unsigned 32-bit integer. -/
def uint (n : Nat) : Nat := n % 2 ^ 32

/-- Modelled from the spec: the macro `nei_assert`, defined outside `src/`. The spec calls a
failed precondition a fatal assertion; the call ends there. `none` means the check passed. -/
def nei_assert (cond : Bool) : Option Fault :=
  if cond then none else some Fault.assertion

/-- The macro `assert` of the C library, with assertions enabled: a false condition ends the
call. `none` means the check passed. -/
def assert (cond : Bool) : Option Fault :=
  if cond then none else some Fault.assertion

namespace vk

/-- The pixel formats `vk::Format` named in `Format.cpp`, in the order of its `switch`. -/
inductive Format where
  | eUndefined
  | eR4G4UnormPack8
  | eR4G4B4A4UnormPack16
  | eB4G4R4A4UnormPack16
  | eR5G6B5UnormPack16
  | eB5G6R5UnormPack16
  | eR5G5B5A1UnormPack16
  | eB5G5R5A1UnormPack16
  | eA1R5G5B5UnormPack16
  | eR8Unorm
  | eR8Snorm
  | eR8Uscaled
  | eR8Sscaled
  | eR8Uint
  | eR8Sint
  | eR8Srgb
  | eR8G8Unorm
  | eR8G8Snorm
  | eR8G8Uscaled
  | eR8G8Sscaled
  | eR8G8Uint
  | eR8G8Sint
  | eR8G8Srgb
  | eR8G8B8Unorm
  | eR8G8B8Snorm
  | eR8G8B8Uscaled
  | eR8G8B8Sscaled
  | eR8G8B8Uint
  | eR8G8B8Sint
  | eR8G8B8Srgb
  | eB8G8R8Unorm
  | eB8G8R8Snorm
  | eB8G8R8Uscaled
  | eB8G8R8Sscaled
  | eB8G8R8Uint
  | eB8G8R8Sint
  | eB8G8R8Srgb
  | eR8G8B8A8Unorm
  | eR8G8B8A8Snorm
  | eR8G8B8A8Uscaled
  | eR8G8B8A8Sscaled
  | eR8G8B8A8Uint
  | eR8G8B8A8Sint
  | eR8G8B8A8Srgb
  | eB8G8R8A8Unorm
  | eB8G8R8A8Snorm
  | eB8G8R8A8Uscaled
  | eB8G8R8A8Sscaled
  | eB8G8R8A8Uint
  | eB8G8R8A8Sint
  | eB8G8R8A8Srgb
  | eA8B8G8R8UnormPack32
  | eA8B8G8R8SnormPack32
  | eA8B8G8R8UscaledPack32
  | eA8B8G8R8SscaledPack32
  | eA8B8G8R8UintPack32
  | eA8B8G8R8SintPack32
  | eA8B8G8R8SrgbPack32
  | eA2R10G10B10UnormPack32
  | eA2R10G10B10SnormPack32
  | eA2R10G10B10UscaledPack32
  | eA2R10G10B10SscaledPack32
  | eA2R10G10B10UintPack32
  | eA2R10G10B10SintPack32
  | eA2B10G10R10UnormPack32
  | eA2B10G10R10SnormPack32
  | eA2B10G10R10UscaledPack32
  | eA2B10G10R10SscaledPack32
  | eA2B10G10R10UintPack32
  | eA2B10G10R10SintPack32
  | eR16Unorm
  | eR16Snorm
  | eR16Uscaled
  | eR16Sscaled
  | eR16Uint
  | eR16Sint
  | eR16Sfloat
  | eR16G16Unorm
  | eR16G16Snorm
  | eR16G16Uscaled
  | eR16G16Sscaled
  | eR16G16Uint
  | eR16G16Sint
  | eR16G16Sfloat
  | eR16G16B16Unorm
  | eR16G16B16Snorm
  | eR16G16B16Uscaled
  | eR16G16B16Sscaled
  | eR16G16B16Uint
  | eR16G16B16Sint
  | eR16G16B16Sfloat
  | eR16G16B16A16Unorm
  | eR16G16B16A16Snorm
  | eR16G16B16A16Uscaled
  | eR16G16B16A16Sscaled
  | eR16G16B16A16Uint
  | eR16G16B16A16Sint
  | eR16G16B16A16Sfloat
  | eR32Uint
  | eR32Sint
  | eR32Sfloat
  | eR32G32Uint
  | eR32G32Sint
  | eR32G32Sfloat
  | eR32G32B32Uint
  | eR32G32B32Sint
  | eR32G32B32Sfloat
  | eR32G32B32A32Uint
  | eR32G32B32A32Sint
  | eR32G32B32A32Sfloat
  | eR64Uint
  | eR64Sint
  | eR64Sfloat
  | eR64G64Uint
  | eR64G64Sint
  | eR64G64Sfloat
  | eR64G64B64Uint
  | eR64G64B64Sint
  | eR64G64B64Sfloat
  | eR64G64B64A64Uint
  | eR64G64B64A64Sint
  | eR64G64B64A64Sfloat
  | eB10G11R11UfloatPack32
  | eE5B9G9R9UfloatPack32
  | eD16Unorm
  | eX8D24UnormPack32
  | eD32Sfloat
  | eS8Uint
  | eD16UnormS8Uint
  | eD24UnormS8Uint
  | eD32SfloatS8Uint
  | eBc1RgbUnormBlock
  | eBc1RgbSrgbBlock
  | eBc1RgbaUnormBlock
  | eBc1RgbaSrgbBlock
  | eBc2UnormBlock
  | eBc2SrgbBlock
  | eBc3UnormBlock
  | eBc3SrgbBlock
  | eBc4UnormBlock
  | eBc4SnormBlock
  | eBc5UnormBlock
  | eBc5SnormBlock
  | eBc6HUfloatBlock
  | eBc6HSfloatBlock
  | eBc7UnormBlock
  | eBc7SrgbBlock
  | eEtc2R8G8B8UnormBlock
  | eEtc2R8G8B8SrgbBlock
  | eEtc2R8G8B8A1UnormBlock
  | eEtc2R8G8B8A1SrgbBlock
  | eEtc2R8G8B8A8UnormBlock
  | eEtc2R8G8B8A8SrgbBlock
  | eEacR11UnormBlock
  | eEacR11SnormBlock
  | eEacR11G11UnormBlock
  | eEacR11G11SnormBlock
  | eAstc4x4UnormBlock
  | eAstc4x4SrgbBlock
  | eAstc5x4UnormBlock
  | eAstc5x4SrgbBlock
  | eAstc5x5UnormBlock
  | eAstc5x5SrgbBlock
  | eAstc6x5UnormBlock
  | eAstc6x5SrgbBlock
  | eAstc6x6UnormBlock
  | eAstc6x6SrgbBlock
  | eAstc8x5UnormBlock
  | eAstc8x5SrgbBlock
  | eAstc8x6UnormBlock
  | eAstc8x6SrgbBlock
  | eAstc8x8UnormBlock
  | eAstc8x8SrgbBlock
  | eAstc10x5UnormBlock
  | eAstc10x5SrgbBlock
  | eAstc10x6UnormBlock
  | eAstc10x6SrgbBlock
  | eAstc10x8UnormBlock
  | eAstc10x8SrgbBlock
  | eAstc10x10UnormBlock
  | eAstc10x10SrgbBlock
  | eAstc12x10UnormBlock
  | eAstc12x10SrgbBlock
  | eAstc12x12UnormBlock
  | eAstc12x12SrgbBlock
  | eG8B8G8R8422Unorm
  | eB8G8R8G8422Unorm
  | eG8B8R83Plane420Unorm
  | eG8B8R82Plane420Unorm
  | eG8B8R83Plane422Unorm
  | eG8B8R82Plane422Unorm
  | eG8B8R83Plane444Unorm
  | eR10X6UnormPack16
  | eR10X6G10X6Unorm2Pack16
  | eR10X6G10X6B10X6A10X6Unorm4Pack16
  | eG10X6B10X6G10X6R10X6422Unorm4Pack16
  | eB10X6G10X6R10X6G10X6422Unorm4Pack16
  | eG10X6B10X6R10X63Plane420Unorm3Pack16
  | eG10X6B10X6R10X62Plane420Unorm3Pack16
  | eG10X6B10X6R10X63Plane422Unorm3Pack16
  | eG10X6B10X6R10X62Plane422Unorm3Pack16
  | eG10X6B10X6R10X63Plane444Unorm3Pack16
  | eR12X4UnormPack16
  | eR12X4G12X4Unorm2Pack16
  | eR12X4G12X4B12X4A12X4Unorm4Pack16
  | eG12X4B12X4G12X4R12X4422Unorm4Pack16
  | eB12X4G12X4R12X4G12X4422Unorm4Pack16
  | eG12X4B12X4R12X43Plane420Unorm3Pack16
  | eG12X4B12X4R12X42Plane420Unorm3Pack16
  | eG12X4B12X4R12X43Plane422Unorm3Pack16
  | eG12X4B12X4R12X42Plane422Unorm3Pack16
  | eG12X4B12X4R12X43Plane444Unorm3Pack16
  | eG16B16G16R16422Unorm
  | eB16G16R16G16422Unorm
  | eG16B16R163Plane420Unorm
  | eG16B16R162Plane420Unorm
  | eG16B16R163Plane422Unorm
  | eG16B16R162Plane422Unorm
  | eG16B16R163Plane444Unorm
  | ePvrtc12BppUnormBlockIMG
  | ePvrtc14BppUnormBlockIMG
  | ePvrtc22BppUnormBlockIMG
  | ePvrtc24BppUnormBlockIMG
  | ePvrtc12BppSrgbBlockIMG
  | ePvrtc14BppSrgbBlockIMG
  | ePvrtc22BppSrgbBlockIMG
  | ePvrtc24BppSrgbBlockIMG
  deriving DecidableEq, Repr

/-- The enum `vk::AccelerationStructureTypeNV`. -/
inductive AccelerationStructureTypeNV where
  | eTopLevel
  | eBottomLevel
  deriving DecidableEq, Repr

/-- The enum `vk::AccelerationStructureMemoryRequirementsTypeNV`. -/
inductive AccelerationStructureMemoryRequirementsTypeNV where
  | eObject
  | eBuildScratch
  | eUpdateScratch
  deriving DecidableEq, Repr

/-- The enum `vk::GeometryTypeNV`. -/
inductive GeometryTypeNV where
  | eTriangles
  | eAabbs
  deriving DecidableEq, Repr

/-- The enum `vk::IndexType`. -/
inductive IndexType where
  | eUint16
  | eUint32
  deriving DecidableEq, Repr

/-- The enum `vk::QueryType`, the one value used. -/
inductive QueryType where
  | eAccelerationStructureCompactedSizeNV
  deriving DecidableEq, Repr

/-- The enum `vk::CopyAccelerationStructureModeNV`. -/
inductive CopyAccelerationStructureModeNV where
  | eClone
  | eCompact
  deriving DecidableEq, Repr

/-- Bit `VK_BUILD_ACCELERATION_STRUCTURE_ALLOW_UPDATE_BIT_NV`. -/
def BuildAccelerationStructureFlagBitsNV.eAllowUpdate : Nat := 0x1

/-- Bit `VK_BUILD_ACCELERATION_STRUCTURE_ALLOW_COMPACTION_BIT_NV`. -/
def BuildAccelerationStructureFlagBitsNV.eAllowCompaction : Nat := 0x2

/-- Bit `VK_GEOMETRY_INSTANCE_TRIANGLE_CULL_DISABLE_BIT_NV`. -/
def GeometryInstanceFlagBitsNV.eTriangleCullDisable : Nat := 0x1

/-- Bit `VK_GEOMETRY_OPAQUE_BIT_NV`. -/
def GeometryFlagBitsNV.eOpaque : Nat := 0x1

/-- Bit `VK_PIPELINE_STAGE_ACCELERATION_STRUCTURE_BUILD_BIT_NV`. -/
def PipelineStageFlagBits.eAccelerationStructureBuildNV : Nat := 0x02000000

/-- Bit `VK_ACCESS_ACCELERATION_STRUCTURE_READ_BIT_NV`. -/
def AccessFlagBits.eAccelerationStructureReadNV : Nat := 0x00200000

/-- Bit `VK_ACCESS_ACCELERATION_STRUCTURE_WRITE_BIT_NV`. -/
def AccessFlagBits.eAccelerationStructureWriteNV : Nat := 0x00400000

/-- The record `vk::GeometryNV` with the triangle fields `buildBottom` fills in. Buffers are
named by their handle, `0` being the null handle. -/
structure GeometryNV where
  geometryType : GeometryTypeNV
  vertexData : Nat
  vertexOffset : Nat
  vertexCount : Nat
  vertexStride : Nat
  vertexFormat : Format
  indexData : Nat
  indexOffset : Nat
  indexCount : Nat
  indexType : IndexType
  transformData : Nat
  transformOffset : Nat
  flags : Nat
  deriving DecidableEq, Repr

/-- The record `vk::GeometryInstance` (declared outside `src/`), with the fields `buildTop`
assigns. `transform` holds the floats copied into it; every float met here is an integer.
The bit widths of the fields are not in `src/`: each field holds the value assigned. -/
structure GeometryInstance where
  transform : List Int
  instanceId : Nat
  mask : Nat
  instanceOffset : Nat
  flags : Nat
  accelerationStructureHandle : Nat
  deriving DecidableEq, Repr

/-- The record `vk::AccelerationStructureInfoNV`. A default-constructed one has no flags, no
geometries and no instances. -/
structure AccelerationStructureInfoNV where
  type : AccelerationStructureTypeNV := AccelerationStructureTypeNV.eTopLevel
  flags : Nat := 0
  instanceCount : Nat := 0
  geometryCount : Nat := 0
  pGeometries : List GeometryNV := []
  deriving DecidableEq, Repr

/-- The record `vk::AccelerationStructureCreateInfoNV`. -/
structure AccelerationStructureCreateInfoNV where
  compactedSize : Nat := 0
  info : AccelerationStructureInfoNV := {}
  deriving DecidableEq, Repr

end vk

/-- Modelled from the spec: `Ptr<T>`, the owning pointer declared outside `src/`, is an
optional value, `none` being the null pointer. Using a null pointer is a caller error, which
the spec treats as fatal: dereferencing it ends the call with `Fault.nullPointer`. -/
def Ptr.deref {α : Type} (p : Option α) : Except Fault α :=
  match p with
  | some a => Except.ok a
  | none => Except.error Fault.nullPointer

/-- The class `Buffer` (declared outside `src/`), as far as the code uses it: the handle of
the Vulkan buffer and of its allocation, the size given to the constructor, whether it was
created with the `Stream` usage, and the last `setData(source, bytes)`. -/
structure Buffer where
  handle : Nat
  size : Nat
  stream : Bool := false
  data : Option (List vk.GeometryInstance × Nat) := none
  deriving DecidableEq, Repr

/-- The member `Buffer::setData(source, bytes)`. -/
def Buffer.setData (b : Buffer) (source : List vk.GeometryInstance) (bytes : Nat) : Buffer :=
  { b with data := some (source, bytes) }

/-- A command recorded into a command buffer. Handles are numbers, `0` is the null handle. -/
inductive Command where
  | begin
  | end_
  | submit
  | buildAccelerationStructureNV (info : vk.AccelerationStructureInfoNV) (instanceData : Nat)
      (instanceOffset : Nat) (update : Bool) (dst : Nat) (src : Nat) (scratch : Nat)
      (scratchOffset : Nat)
  | memoryBarrier (srcStage : Nat) (dstStage : Nat) (srcAccess : Nat) (dstAccess : Nat)
  | resetQueryPool (pool : Nat) (firstQuery : Nat) (queryCount : Nat)
  | writeAccelerationStructuresPropertiesNV (structures : List Nat) (queryType : vk.QueryType)
      (pool : Nat) (firstQuery : Nat)
  | copyAccelerationStructureNV (dst : Nat) (src : Nat) (mode : vk.CopyAccelerationStructureModeNV)
  | debugBarrier
  deriving DecidableEq, Repr

/-- The class `CommandBuffer`: the commands recorded so far, oldest first. -/
abbrev CommandBuffer := List Command

/-- The member `CommandBuffer::memoryBarrier`: records the barrier. -/
def CommandBuffer.memoryBarrier (cmd : CommandBuffer) (srcStage dstStage srcAccess dstAccess : Nat) :
    CommandBuffer :=
  cmd ++ [Command.memoryBarrier srcStage dstStage srcAccess dstAccess]

/-- What the code reads from outside `src/`.

* `memoryRequirements s t` is the size the device reports for structure `s` and requirement
  type `t` (`getAccelerationStructureMemoryRequirementsNV(...).memoryRequirements.size`, a
  64-bit value). The requirement of a structure is fixed when the structure is created.
* `handleOf s` is the 64-bit handle `getAccelerationStructureHandleNV` writes for `s`.
* `compactedSize s` is the value `getQueryPoolResults` reads back after the compacted size of
  `s` was written into the query pool.
* `sizeofGeometryInstance` is `sizeof(vk::GeometryInstance)`.
* `updatable` is the value of the member `updatable` in a newly constructed
  `AccelerationStructure`; the constructor in `src/` does not set it. -/
structure Env where
  memoryRequirements : Nat → vk.AccelerationStructureMemoryRequirementsTypeNV → Nat
  handleOf : Nat → Nat
  compactedSize : Nat → Nat
  sizeofGeometryInstance : Nat
  updatable : Bool

/-- The device-side state the code changes through `DeviceContext`: the next unused handle,
the acceleration structures created (with their create info) and destroyed, the buffers
allocated, the memory bound to structures, the query pools created and destroyed, and what
was recorded into single-use command buffers. -/
structure DeviceContext where
  nextHandle : Nat := 1
  structures : List (Nat × vk.AccelerationStructureCreateInfoNV) := []
  destroyedStructures : List Nat := []
  buffers : List Buffer := []
  bound : List (Nat × Nat) := []
  queryPools : List Nat := []
  destroyedQueryPools : List Nat := []
  singleUse : CommandBuffer := []
  deriving DecidableEq, Repr

namespace DeviceContext

/-- The call `device.createAccelerationStructureNV(asci, ...)`: a new object with a new handle. -/
def createAccelerationStructureNV (dc : DeviceContext) (asci : vk.AccelerationStructureCreateInfoNV) :
    Nat × DeviceContext :=
  (dc.nextHandle,
    { dc with nextHandle := dc.nextHandle + 1, structures := dc.structures ++ [(dc.nextHandle, asci)] })

/-- The call `device.destroyAccelerationStructureNV(structure, ...)`. -/
def destroyAccelerationStructureNV (dc : DeviceContext) (structure_ : Nat) : DeviceContext :=
  { dc with destroyedStructures := dc.destroyedStructures ++ [structure_] }

/-- The expression `new Buffer(deviceContext, size, Buffer::Type::Raytracing[, Stream])`. -/
def newBuffer (dc : DeviceContext) (size : Nat) (stream : Bool) : Buffer × DeviceContext :=
  let b : Buffer := { handle := dc.nextHandle, size := size, stream := stream }
  (b, { dc with nextHandle := dc.nextHandle + 1, buffers := dc.buffers ++ [b] })

/-- The call `device.bindAccelerationStructureMemoryNV` with the allocation of `buffer`. -/
def bindAccelerationStructureMemoryNV (dc : DeviceContext) (structure_ : Nat) (buffer : Buffer) :
    DeviceContext :=
  { dc with bound := dc.bound ++ [(structure_, buffer.handle)] }

/-- The call `device.createQueryPool(qpci)` for one compacted-size query. -/
def createQueryPool (dc : DeviceContext) : Nat × DeviceContext :=
  (dc.nextHandle, { dc with nextHandle := dc.nextHandle + 1, queryPools := dc.queryPools ++ [dc.nextHandle] })

/-- The call `device.destroyQueryPool(pool)`. -/
def destroyQueryPool (dc : DeviceContext) (pool : Nat) : DeviceContext :=
  { dc with destroyedQueryPools := dc.destroyedQueryPools ++ [pool] }

/-- Recording `cmds` into the single-use command buffer of the context. -/
def record (dc : DeviceContext) (cmds : List Command) : DeviceContext :=
  { dc with singleUse := dc.singleUse ++ cmds }

end DeviceContext

/-- The class `AccelerationStructure`: the flag `updatable`, the Vulkan object `structure`
(`0` before `build`), its 64-bit `handle`, and the three owned buffers. -/
structure AccelerationStructure where
  updatable : Bool
  structure_ : Nat := 0
  handle : Nat := 0
  buffer : Option Buffer := none
  bufferScratch : Option Buffer := none
  bufferInstances : Option Buffer := none
  deriving DecidableEq, Repr

/-- The result of a member function of `AccelerationStructure` that records into a command
buffer: the fault that ended it, if any, and the object, the device state and the command
buffer as the call left them. -/
structure Step where
  fault : Option Fault
  self : AccelerationStructure
  dc : DeviceContext
  cmd : CommandBuffer
  deriving DecidableEq, Repr

namespace AccelerationStructure

/-- The constructor `AccelerationStructure(DeviceContext* dc)`: it sets no member. -/
def new (env : Env) : AccelerationStructure :=
  { updatable := env.updatable }

/-- Modelled from the spec: the accessor `getHandle`, declared in the absent
`AccelerationStructure.h`; it returns the stored opaque handle. -/
def getHandle (self : AccelerationStructure) : Nat :=
  self.handle

/-- The member `barrier(cmd)`. -/
def barrier (cmd : CommandBuffer) : CommandBuffer :=
  cmd.memoryBarrier vk.PipelineStageFlagBits.eAccelerationStructureBuildNV
    vk.PipelineStageFlagBits.eAccelerationStructureBuildNV
    (vk.AccessFlagBits.eAccelerationStructureReadNV ||| vk.AccessFlagBits.eAccelerationStructureWriteNV)
    (vk.AccessFlagBits.eAccelerationStructureReadNV ||| vk.AccessFlagBits.eAccelerationStructureWriteNV)

/-- The member `build(cmd, std::vector<vk::GeometryNV> const&)`. -/
def build_GeometryNV (env : Env) (self : AccelerationStructure) (dc : DeviceContext)
    (cmd : CommandBuffer) (geometries : List vk.GeometryNV) : Step :=
  let asinfo : vk.AccelerationStructureInfoNV :=
    { type := vk.AccelerationStructureTypeNV.eBottomLevel
      flags := if self.updatable then vk.BuildAccelerationStructureFlagBitsNV.eAllowUpdate
               else vk.BuildAccelerationStructureFlagBitsNV.eAllowCompaction
      geometryCount := uint geometries.length
      pGeometries := geometries
      instanceCount := 0 }
  let asci : vk.AccelerationStructureCreateInfoNV := { info := asinfo }
  let (structure_, dc) := dc.createAccelerationStructureNV asci
  -- memory requirements info
  let memReqObject := env.memoryRequirements structure_ vk.AccelerationStructureMemoryRequirementsTypeNV.eObject
  let memReqBuild := env.memoryRequirements structure_ vk.AccelerationStructureMemoryRequirementsTypeNV.eBuildScratch
  let memReqUpdate := env.memoryRequirements structure_ vk.AccelerationStructureMemoryRequirementsTypeNV.eUpdateScratch
  -- allocate buffers
  let (buffer, dc) := dc.newBuffer (uint memReqObject) false
  let scratchSize := max memReqBuild memReqUpdate
  let (bufferScratch, dc) := dc.newBuffer (uint scratchSize) false
  -- bind memory to structure
  let dc := dc.bindAccelerationStructureMemoryNV structure_ buffer
  -- build
  let cmd := cmd ++ [Command.buildAccelerationStructureNV asinfo 0 0 false structure_ 0 bufferScratch.handle 0]
  let cmd := barrier cmd
  -- handle
  let handle := env.handleOf structure_
  { fault := none
    self := { self with structure_ := structure_, buffer := some buffer,
                        bufferScratch := some bufferScratch, handle := handle }
    dc := dc
    cmd := cmd }

/-- The member `rebuild(cmd, std::vector<vk::GeometryNV> const&)`. -/
def rebuild_GeometryNV (self : AccelerationStructure) (dc : DeviceContext)
    (cmd : CommandBuffer) (geometries : List vk.GeometryNV) : Step :=
  let asinfo : vk.AccelerationStructureInfoNV :=
    { type := vk.AccelerationStructureTypeNV.eBottomLevel
      flags := if self.updatable then vk.BuildAccelerationStructureFlagBitsNV.eAllowUpdate
               else vk.BuildAccelerationStructureFlagBitsNV.eAllowCompaction
      geometryCount := uint geometries.length
      pGeometries := geometries
      instanceCount := 0 }
  -- build
  match Ptr.deref self.bufferScratch with
  | Except.error f => { fault := some f, self := self, dc := dc, cmd := cmd }
  | Except.ok bufferScratch =>
    let cmd := cmd ++ [Command.buildAccelerationStructureNV asinfo 0 0 false self.structure_ 0
                        bufferScratch.handle 0]
    let cmd := barrier cmd
    { fault := none, self := self, dc := dc, cmd := cmd }

/-- The member `update(cmd, std::vector<vk::GeometryNV> const&)`. -/
def update_GeometryNV (self : AccelerationStructure) (dc : DeviceContext)
    (cmd : CommandBuffer) (geometries : List vk.GeometryNV) : Step :=
  match nei_assert self.updatable with
  | some f => { fault := some f, self := self, dc := dc, cmd := cmd }
  | none =>
    let asinfo : vk.AccelerationStructureInfoNV :=
      { type := vk.AccelerationStructureTypeNV.eBottomLevel
        flags := vk.BuildAccelerationStructureFlagBitsNV.eAllowUpdate
        geometryCount := uint geometries.length
        pGeometries := geometries
        instanceCount := 0 }
    -- build
    match Ptr.deref self.bufferScratch with
    | Except.error f => { fault := some f, self := self, dc := dc, cmd := cmd }
    | Except.ok bufferScratch =>
      let cmd := cmd ++ [Command.buildAccelerationStructureNV asinfo 0 0 true self.structure_
                          self.structure_ bufferScratch.handle 0]
      let cmd := barrier cmd
      { fault := none, self := self, dc := dc, cmd := cmd }

/-- The member `build(cmd, std::vector<vk::GeometryInstance> const&)`. -/
def build_GeometryInstance (env : Env) (self : AccelerationStructure) (dc : DeviceContext)
    (cmd : CommandBuffer) (instances : List vk.GeometryInstance) : Step :=
  let flags : Nat := 0
  let flags := if self.updatable then flags ||| vk.BuildAccelerationStructureFlagBitsNV.eAllowUpdate
               else flags
  let asinfo : vk.AccelerationStructureInfoNV :=
    { type := vk.AccelerationStructureTypeNV.eTopLevel
      flags := flags
      instanceCount := uint instances.length }
  let asci : vk.AccelerationStructureCreateInfoNV := { info := asinfo }
  let (structure_, dc) := dc.createAccelerationStructureNV asci
  -- memory requirements info
  let memReqObject := env.memoryRequirements structure_ vk.AccelerationStructureMemoryRequirementsTypeNV.eObject
  let memReqBuild := env.memoryRequirements structure_ vk.AccelerationStructureMemoryRequirementsTypeNV.eBuildScratch
  let memReqUpdate := env.memoryRequirements structure_ vk.AccelerationStructureMemoryRequirementsTypeNV.eUpdateScratch
  let (buffer, dc) := dc.newBuffer (uint memReqObject) false
  let scratchSize := max memReqBuild memReqUpdate
  let (bufferScratch, dc) := dc.newBuffer (uint scratchSize) false
  let (bufferInstances, dc) := dc.newBuffer (uint (instances.length * env.sizeofGeometryInstance)) true
  let bufferInstances := bufferInstances.setData instances (uint (instances.length * env.sizeofGeometryInstance))
  let dc := dc.bindAccelerationStructureMemoryNV structure_ buffer
  let cmd := cmd ++ [Command.buildAccelerationStructureNV asinfo bufferInstances.handle 0 false
                      structure_ 0 bufferScratch.handle 0]
  let cmd := barrier cmd
  -- handle
  let handle := env.handleOf structure_
  { fault := none
    self := { self with structure_ := structure_, buffer := some buffer,
                        bufferScratch := some bufferScratch,
                        bufferInstances := some bufferInstances, handle := handle }
    dc := dc
    cmd := cmd }

/-- The member `rebuild(cmd, std::vector<vk::GeometryInstance> const&)`. -/
def rebuild_GeometryInstance (self : AccelerationStructure) (dc : DeviceContext)
    (cmd : CommandBuffer) (instances : List vk.GeometryInstance) : Step :=
  let flags : Nat := 0
  let flags := if self.updatable then flags ||| vk.BuildAccelerationStructureFlagBitsNV.eAllowUpdate
               else flags
  let asinfo : vk.AccelerationStructureInfoNV :=
    { type := vk.AccelerationStructureTypeNV.eTopLevel
      flags := flags
      instanceCount := uint instances.length }
  match Ptr.deref self.bufferInstances with
  | Except.error f => { fault := some f, self := self, dc := dc, cmd := cmd }
  | Except.ok bufferInstances =>
    match Ptr.deref self.bufferScratch with
    | Except.error f => { fault := some f, self := self, dc := dc, cmd := cmd }
    | Except.ok bufferScratch =>
      let cmd := cmd ++ [Command.buildAccelerationStructureNV asinfo bufferInstances.handle 0 false
                          self.structure_ 0 bufferScratch.handle 0]
      let cmd := barrier cmd
      { fault := none, self := self, dc := dc, cmd := cmd }

/-- The member `update(cmd, std::vector<vk::GeometryInstance> const&)`. -/
def update_GeometryInstance (self : AccelerationStructure) (dc : DeviceContext)
    (cmd : CommandBuffer) (instances : List vk.GeometryInstance) : Step :=
  match nei_assert self.updatable with
  | some f => { fault := some f, self := self, dc := dc, cmd := cmd }
  | none =>
    let asinfo : vk.AccelerationStructureInfoNV :=
      { type := vk.AccelerationStructureTypeNV.eTopLevel
        flags := vk.BuildAccelerationStructureFlagBitsNV.eAllowUpdate
        instanceCount := uint instances.length }
    -- skip instance data copy - it is always one instance with identity transform
    match Ptr.deref self.bufferInstances with
    | Except.error f => { fault := some f, self := self, dc := dc, cmd := cmd }
    | Except.ok bufferInstances =>
      match Ptr.deref self.bufferScratch with
      | Except.error f => { fault := some f, self := self, dc := dc, cmd := cmd }
      | Except.ok bufferScratch =>
        let cmd := cmd ++ [Command.buildAccelerationStructureNV asinfo bufferInstances.handle 0 true
                            self.structure_ self.structure_ bufferScratch.handle 0]
        let cmd := barrier cmd
        { fault := none, self := self, dc := dc, cmd := cmd }

/-- The result of `compact()`, which takes no command buffer. -/
structure CompactStep where
  fault : Option Fault
  self : AccelerationStructure
  dc : DeviceContext
  deriving DecidableEq, Repr

/-- The member `compact()`. -/
def compact (env : Env) (self : AccelerationStructure) (dc : DeviceContext) : CompactStep :=
  match nei_assert (!self.updatable) with
  | some f => { fault := some f, self := self, dc := dc }
  | none =>
    let (pool, dc) := dc.createQueryPool
    let dc := dc.record
      [ Command.begin
      , Command.resetQueryPool pool 0 1
      , Command.writeAccelerationStructuresPropertiesNV [self.structure_]
          vk.QueryType.eAccelerationStructureCompactedSizeNV pool 0
      , Command.end_
      , Command.submit ]
    let data := env.compactedSize self.structure_
    let dc := dc.destroyQueryPool pool
    let info : vk.AccelerationStructureCreateInfoNV :=
      { compactedSize := data
        info := { type := vk.AccelerationStructureTypeNV.eBottomLevel, flags := 0 } }
    let (compacted, dc) := dc.createAccelerationStructureNV info
    let memReqObject := env.memoryRequirements self.structure_ vk.AccelerationStructureMemoryRequirementsTypeNV.eObject
    let (compactedBuffer, dc) := dc.newBuffer (uint memReqObject) false
    let dc := dc.bindAccelerationStructureMemoryNV compacted compactedBuffer
    let dc := dc.record
      [ Command.begin
      , Command.copyAccelerationStructureNV compacted self.structure_
          vk.CopyAccelerationStructureModeNV.eCompact
      , Command.end_
      , Command.submit ]
    let dc := dc.destroyAccelerationStructureNV self.structure_
    { fault := none
      self := { self with buffer := some compactedBuffer, structure_ := compacted,
                          handle := env.handleOf compacted }
      dc := dc }

end AccelerationStructure

namespace AccelerationStructure

/-- Modelled from the spec: the member `create(cmd, std::vector<vk::GeometryNV> const&)` that
`RaytracingBVH::buildBottom` calls is not in `src/`. The spec has `buildBottom` create and
build the bottom-level structure from the geometry list, which is what `build` does. -/
def create_GeometryNV (env : Env) (self : AccelerationStructure) (dc : DeviceContext)
    (cmd : CommandBuffer) (geometries : List vk.GeometryNV) : Step :=
  build_GeometryNV env self dc cmd geometries

/-- Modelled from the spec: the member `create(cmd, std::vector<vk::GeometryInstance> const&)`
that `RaytracingBVH::buildTop` calls is not in `src/`. The spec has `buildTop` create and
build the top-level structure from the instance list, which is what `build` does. -/
def create_GeometryInstance (env : Env) (self : AccelerationStructure) (dc : DeviceContext)
    (cmd : CommandBuffer) (instances : List vk.GeometryInstance) : Step :=
  build_GeometryInstance env self dc cmd instances

end AccelerationStructure

/-- The constructor `mat4 tr(d)` of glm: the 4x4 matrix with `d` on the diagonal, as its 16
floats in memory order (column after column). -/
def mat4 (d : Int) : List Int :=
  [d, 0, 0, 0,  0, d, 0, 0,  0, 0, d, 0,  0, 0, 0, d]

/-- Modelled from the spec: the number of floats in `vk::GeometryInstance::transform`, whose
declaration is not in `src/`; the instance descriptor of the spec holds a 4x3 affine matrix.
`sizeof(instance.transform)` is four times this. -/
def transformFloats : Nat := 12

/-- One attribute of a vertex layout: its format. -/
structure VertexAttribute where
  format : vk.Format
  deriving DecidableEq, Repr

/-- The vertex layout of a mesh: the stride and the attributes in order. -/
structure VertexLayout where
  stride : Nat
  attributes : List VertexAttribute
  deriving DecidableEq, Repr

/-- The class `Mesh` (declared outside `src/`), as far as `buildBottom` reads it. -/
structure Mesh where
  vertexBuffer : Option Buffer
  vertexBufferOffset : Nat
  vertexCount : Nat
  vertexLayout : VertexLayout
  indexBuffer : Option Buffer
  indexBufferOffset : Nat
  indexCount : Nat
  deriving DecidableEq, Repr

/-- The class `RaytracingBVH` with its member initialisers. -/
structure RaytracingBVH where
  updatableTop : Bool := false
  updatableBottom : Bool := false
  instances : List vk.GeometryInstance := []
  geometries : List vk.GeometryNV := []
  topLevel : Option AccelerationStructure := none
  bottomLevel : Option AccelerationStructure := none
  deriving DecidableEq, Repr

/-- The result of a member function of `RaytracingBVH` that records into a command buffer. -/
structure BVHStep where
  fault : Option Fault
  self : RaytracingBVH
  dc : DeviceContext
  cmd : CommandBuffer
  deriving DecidableEq, Repr

/-- The result of `RaytracingBVH::compactBottom`, which takes no command buffer. -/
structure BVHCompactStep where
  fault : Option Fault
  self : RaytracingBVH
  dc : DeviceContext
  deriving DecidableEq, Repr

namespace RaytracingBVH

/-- The member `setUpdatable(top, bottom)`. -/
def setUpdatable (self : RaytracingBVH) (top bottom : Bool) : RaytracingBVH :=
  { self with updatableTop := top, updatableBottom := bottom }

/-- The member `buildTop(cmd)`. -/
def buildTop (env : Env) (self : RaytracingBVH) (dc : DeviceContext) (cmd : CommandBuffer) :
    BVHStep :=
  let tr := mat4 1
  match Ptr.deref self.bottomLevel with
  | Except.error f => { fault := some f, self := self, dc := dc, cmd := cmd }
  | Except.ok bottomLevel =>
    let instance_ : vk.GeometryInstance :=
      { transform := tr.take transformFloats
        instanceId := self.instances.length
        mask := 0xFF
        instanceOffset := 0
        flags := uint vk.GeometryInstanceFlagBitsNV.eTriangleCullDisable
        accelerationStructureHandle := bottomLevel.getHandle }
    let instances := self.instances ++ [instance_]
    let topLevel := AccelerationStructure.new env
    let r := topLevel.create_GeometryInstance env dc cmd instances
    { fault := r.fault
      self := { self with instances := instances, topLevel := some r.self }
      dc := r.dc
      cmd := r.cmd }

/-- The member `buildBottom(cmd, mesh)`. -/
def buildBottom (env : Env) (self : RaytracingBVH) (dc : DeviceContext) (cmd : CommandBuffer)
    (mesh : Mesh) : BVHStep :=
  match Ptr.deref mesh.vertexBuffer with
  | Except.error f => { fault := some f, self := self, dc := dc, cmd := cmd }
  | Except.ok vertexBuffer =>
    match mesh.vertexLayout.attributes.head? with
    | none => { fault := some Fault.outOfRange, self := self, dc := dc, cmd := cmd }
    | some attribute0 =>
      match assert (decide (attribute0.format = vk.Format.eR32G32B32Sfloat)) with
      | some f => { fault := some f, self := self, dc := dc, cmd := cmd }
      | none =>
        match Ptr.deref mesh.indexBuffer with
        | Except.error f => { fault := some f, self := self, dc := dc, cmd := cmd }
        | Except.ok indexBuffer =>
          let geometry : vk.GeometryNV :=
            { geometryType := vk.GeometryTypeNV.eTriangles
              vertexData := vertexBuffer.handle
              vertexOffset := mesh.vertexBufferOffset
              vertexCount := mesh.vertexCount
              vertexStride := mesh.vertexLayout.stride
              vertexFormat := vk.Format.eR32G32B32Sfloat
              indexData := indexBuffer.handle
              indexOffset := mesh.indexBufferOffset
              indexCount := mesh.indexCount
              indexType := vk.IndexType.eUint32
              transformData := 0
              transformOffset := 0
              flags := vk.GeometryFlagBitsNV.eOpaque }
          let geometries := self.geometries ++ [geometry]
          let bottomLevel := AccelerationStructure.new env
          let r := bottomLevel.create_GeometryNV env dc cmd geometries
          { fault := r.fault
            self := { self with geometries := geometries, bottomLevel := some r.self }
            dc := r.dc
            cmd := r.cmd }

/-- The member `getTop()`. -/
def getTop (self : RaytracingBVH) : Option AccelerationStructure :=
  self.topLevel

/-- The member `compactBottom()`. -/
def compactBottom (env : Env) (self : RaytracingBVH) (dc : DeviceContext) : BVHCompactStep :=
  match Ptr.deref self.bottomLevel with
  | Except.error f => { fault := some f, self := self, dc := dc }
  | Except.ok bottomLevel =>
    let r := bottomLevel.compact env dc
    { fault := r.fault, self := { self with bottomLevel := some r.self }, dc := r.dc }

end RaytracingBVH

/-! ## Sequences of operations on one structure -/

/-- One call of a member function of `AccelerationStructure`, with its argument. -/
inductive Op where
  | build_GeometryNV (geometries : List vk.GeometryNV)
  | rebuild_GeometryNV (geometries : List vk.GeometryNV)
  | update_GeometryNV (geometries : List vk.GeometryNV)
  | build_GeometryInstance (instances : List vk.GeometryInstance)
  | rebuild_GeometryInstance (instances : List vk.GeometryInstance)
  | update_GeometryInstance (instances : List vk.GeometryInstance)
  | compact
  deriving DecidableEq, Repr

namespace Op

/-- Whether the call is an `update` (a refit). -/
def isUpdate : Op → Bool
  | update_GeometryNV _ => true
  | update_GeometryInstance _ => true
  | _ => false

/-- Whether the call is a `compact`. -/
def isCompact : Op → Bool
  | compact => true
  | _ => false

/-- Performing one call. `compact` takes no command buffer and leaves `cmd` as it is. -/
def apply (env : Env) (op : Op) (self : AccelerationStructure) (dc : DeviceContext)
    (cmd : CommandBuffer) : Step :=
  match op with
  | build_GeometryNV g => self.build_GeometryNV env dc cmd g
  | rebuild_GeometryNV g => self.rebuild_GeometryNV dc cmd g
  | update_GeometryNV g => self.update_GeometryNV dc cmd g
  | build_GeometryInstance i => self.build_GeometryInstance env dc cmd i
  | rebuild_GeometryInstance i => self.rebuild_GeometryInstance dc cmd i
  | update_GeometryInstance i => self.update_GeometryInstance dc cmd i
  | compact =>
    let r := self.compact env dc
    { fault := r.fault, self := r.self, dc := r.dc, cmd := cmd }

end Op

/-- Performing calls one after the other on one structure. The run ends at the first call
that fails. The result is the list of the calls that succeeded and the last step made. -/
def run (env : Env) : List Op → AccelerationStructure → DeviceContext → CommandBuffer →
    List Op × Step
  | [], self, dc, cmd => ([], { fault := none, self := self, dc := dc, cmd := cmd })
  | op :: ops, self, dc, cmd =>
    let r := op.apply env self dc cmd
    match r.fault with
    | some _ => ([], r)
    | none =>
      let rest := run env ops r.self r.dc r.cmd
      (op :: rest.1, rest.2)

/-- Calling `buildTop` `k` times in a row; the calls end at the first one that fails. -/
def buildTopTimes (env : Env) : Nat → RaytracingBVH → DeviceContext → CommandBuffer → BVHStep
  | 0, self, dc, cmd => { fault := none, self := self, dc := dc, cmd := cmd }
  | k + 1, self, dc, cmd =>
    let r := self.buildTop env dc cmd
    match r.fault with
    | some _ => r
    | none => buildTopTimes env k r.self r.dc r.cmd

/-! ## Concrete inputs -/

/-- A device whose requirements all fit in 32 bits: 1024 bytes of object storage, 256 of
build scratch, 128 of update scratch; the handle of structure `s` is `1000 + s`. -/
def envSmall : Env :=
  { memoryRequirements := fun _ t =>
      match t with
      | vk.AccelerationStructureMemoryRequirementsTypeNV.eObject => 1024
      | vk.AccelerationStructureMemoryRequirementsTypeNV.eBuildScratch => 256
      | vk.AccelerationStructureMemoryRequirementsTypeNV.eUpdateScratch => 128
    handleOf := fun s => 1000 + s
    compactedSize := fun _ => 512
    sizeofGeometryInstance := 64
    updatable := false }

/-- The device of `envSmall`, with newly constructed structures updatable. -/
def envUpdatable : Env :=
  { envSmall with updatable := true }

/-- A device that reports a build-scratch requirement of `2 ^ 32` bytes (4 GiB). -/
def envWide : Env :=
  { envSmall with
    memoryRequirements := fun _ t =>
      match t with
      | vk.AccelerationStructureMemoryRequirementsTypeNV.eObject => 1024
      | vk.AccelerationStructureMemoryRequirementsTypeNV.eBuildScratch => 2 ^ 32
      | vk.AccelerationStructureMemoryRequirementsTypeNV.eUpdateScratch => 0 }

/-- A mesh of one triangle whose first attribute is a 3 x float32 position. -/
def meshTriangle : Mesh :=
  { vertexBuffer := some { handle := 101, size := 36 }
    vertexBufferOffset := 0
    vertexCount := 3
    vertexLayout := { stride := 12, attributes := [{ format := vk.Format.eR32G32B32Sfloat }] }
    indexBuffer := some { handle := 102, size := 12 }
    indexBufferOffset := 0
    indexCount := 3 }

/-- The manager after `buildBottom` of `meshTriangle` on a new manager and a new device. -/
def bvhBuilt : BVHStep :=
  RaytracingBVH.buildBottom envSmall {} {} [] meshTriangle

/-- The instance list the top-level structure of the manager was built from: the source of
the upload into its instance buffer. -/
def RaytracingBVH.topLevelInstances (self : RaytracingBVH) : Option (List vk.GeometryInstance) :=
  match self.topLevel with
  | none => none
  | some t =>
    match t.bufferInstances with
    | none => none
    | some b => b.data.map Prod.fst

/-- A non-updatable bottom-level structure right after `build` on a new device. -/
def asBuilt : Step :=
  AccelerationStructure.build_GeometryNV envSmall (AccelerationStructure.new envSmall) {} [] []

/-- The structure of `asBuilt` after one `compact()`. -/
def asCompacted : AccelerationStructure.CompactStep :=
  AccelerationStructure.compact envSmall asBuilt.self asBuilt.dc

/-! ## The format table -/

/-- Modelled from the spec: the macro `nei_error`, defined outside `src/`. The spec has the
unsupported-format path log an error and go on: the message is appended to the log. -/
def nei_error (message : String) (log : List String) : List String :=
  log ++ [message]

/-- The function `Nei::Vu::formatSize(format)` of `Format.cpp`: the value it returns and the
messages it logs. The cases are those of the `switch`, in its order; a case that ends in
`break` leaves the `switch` for the two statements after it, `nei_error("NYI"); return 0;`. -/
def formatSize (format : vk.Format) : Int × List String :=
  let afterSwitch : Int × List String := (0, nei_error "NYI" [])
  match format with
  | .eUndefined => (0, [])
  | .eR4G4UnormPack8 => afterSwitch
  | .eR4G4B4A4UnormPack16 => afterSwitch
  | .eB4G4R4A4UnormPack16 => afterSwitch
  | .eR5G6B5UnormPack16 => afterSwitch
  | .eB5G6R5UnormPack16 => afterSwitch
  | .eR5G5B5A1UnormPack16 => afterSwitch
  | .eB5G5R5A1UnormPack16 => afterSwitch
  | .eA1R5G5B5UnormPack16 => afterSwitch
  | .eR8Unorm
  | .eR8Snorm
  | .eR8Uscaled
  | .eR8Sscaled
  | .eR8Uint
  | .eR8Sint
  | .eR8Srgb => (1, [])
  | .eR8G8Unorm
  | .eR8G8Snorm
  | .eR8G8Uscaled
  | .eR8G8Sscaled
  | .eR8G8Uint
  | .eR8G8Sint
  | .eR8G8Srgb => (2, [])
  | .eR8G8B8Unorm
  | .eR8G8B8Snorm
  | .eR8G8B8Uscaled
  | .eR8G8B8Sscaled
  | .eR8G8B8Uint
  | .eR8G8B8Sint
  | .eR8G8B8Srgb
  | .eB8G8R8Unorm
  | .eB8G8R8Snorm
  | .eB8G8R8Uscaled
  | .eB8G8R8Sscaled
  | .eB8G8R8Uint
  | .eB8G8R8Sint
  | .eB8G8R8Srgb => (3, [])
  | .eR8G8B8A8Unorm
  | .eR8G8B8A8Snorm
  | .eR8G8B8A8Uscaled
  | .eR8G8B8A8Sscaled
  | .eR8G8B8A8Uint
  | .eR8G8B8A8Sint
  | .eR8G8B8A8Srgb
  | .eB8G8R8A8Unorm
  | .eB8G8R8A8Snorm
  | .eB8G8R8A8Uscaled
  | .eB8G8R8A8Sscaled
  | .eB8G8R8A8Uint
  | .eB8G8R8A8Sint
  | .eB8G8R8A8Srgb => (4, [])
  | .eA8B8G8R8UnormPack32
  | .eA8B8G8R8SnormPack32
  | .eA8B8G8R8UscaledPack32
  | .eA8B8G8R8SscaledPack32
  | .eA8B8G8R8UintPack32
  | .eA8B8G8R8SintPack32
  | .eA8B8G8R8SrgbPack32
  | .eA2R10G10B10UnormPack32
  | .eA2R10G10B10SnormPack32
  | .eA2R10G10B10UscaledPack32
  | .eA2R10G10B10SscaledPack32
  | .eA2R10G10B10UintPack32
  | .eA2R10G10B10SintPack32
  | .eA2B10G10R10UnormPack32
  | .eA2B10G10R10SnormPack32
  | .eA2B10G10R10UscaledPack32
  | .eA2B10G10R10SscaledPack32
  | .eA2B10G10R10UintPack32
  | .eA2B10G10R10SintPack32 => (4, [])
  | .eR16Unorm
  | .eR16Snorm
  | .eR16Uscaled
  | .eR16Sscaled
  | .eR16Uint
  | .eR16Sint
  | .eR16Sfloat => (2, [])
  | .eR16G16Unorm
  | .eR16G16Snorm
  | .eR16G16Uscaled
  | .eR16G16Sscaled
  | .eR16G16Uint
  | .eR16G16Sint
  | .eR16G16Sfloat => (4, [])
  | .eR16G16B16Unorm
  | .eR16G16B16Snorm
  | .eR16G16B16Uscaled
  | .eR16G16B16Sscaled
  | .eR16G16B16Uint
  | .eR16G16B16Sint
  | .eR16G16B16Sfloat => (6, [])
  | .eR16G16B16A16Unorm
  | .eR16G16B16A16Snorm
  | .eR16G16B16A16Uscaled
  | .eR16G16B16A16Sscaled
  | .eR16G16B16A16Uint
  | .eR16G16B16A16Sint
  | .eR16G16B16A16Sfloat => (8, [])
  | .eR32Uint
  | .eR32Sint
  | .eR32Sfloat => (4, [])
  | .eR32G32Uint
  | .eR32G32Sint
  | .eR32G32Sfloat => (8, [])
  | .eR32G32B32Uint
  | .eR32G32B32Sint
  | .eR32G32B32Sfloat => (12, [])
  | .eR32G32B32A32Uint
  | .eR32G32B32A32Sint
  | .eR32G32B32A32Sfloat => (16, [])
  | .eR64Uint
  | .eR64Sint
  | .eR64Sfloat => (8, [])
  | .eR64G64Uint
  | .eR64G64Sint
  | .eR64G64Sfloat => (16, [])
  | .eR64G64B64Uint
  | .eR64G64B64Sint
  | .eR64G64B64Sfloat => (24, [])
  | .eR64G64B64A64Uint
  | .eR64G64B64A64Sint
  | .eR64G64B64A64Sfloat => (32, [])
  | .eB10G11R11UfloatPack32
  | .eE5B9G9R9UfloatPack32 => (4, [])
  | .eD16Unorm => (2, [])
  | .eX8D24UnormPack32 => (4, [])
  | .eD32Sfloat => (4, [])
  | .eS8Uint => (1, [])
  | .eD16UnormS8Uint => (3, [])
  | .eD24UnormS8Uint => (4, [])
  | .eD32SfloatS8Uint => (5, [])
  | .eBc1RgbUnormBlock => afterSwitch
  | .eBc1RgbSrgbBlock => afterSwitch
  | .eBc1RgbaUnormBlock => afterSwitch
  | .eBc1RgbaSrgbBlock => afterSwitch
  | .eBc2UnormBlock => afterSwitch
  | .eBc2SrgbBlock => afterSwitch
  | .eBc3UnormBlock => afterSwitch
  | .eBc3SrgbBlock => afterSwitch
  | .eBc4UnormBlock => afterSwitch
  | .eBc4SnormBlock => afterSwitch
  | .eBc5UnormBlock => afterSwitch
  | .eBc5SnormBlock => afterSwitch
  | .eBc6HUfloatBlock => afterSwitch
  | .eBc6HSfloatBlock => afterSwitch
  | .eBc7UnormBlock => afterSwitch
  | .eBc7SrgbBlock => afterSwitch
  | .eEtc2R8G8B8UnormBlock => afterSwitch
  | .eEtc2R8G8B8SrgbBlock => afterSwitch
  | .eEtc2R8G8B8A1UnormBlock => afterSwitch
  | .eEtc2R8G8B8A1SrgbBlock => afterSwitch
  | .eEtc2R8G8B8A8UnormBlock => afterSwitch
  | .eEtc2R8G8B8A8SrgbBlock => afterSwitch
  | .eEacR11UnormBlock => afterSwitch
  | .eEacR11SnormBlock => afterSwitch
  | .eEacR11G11UnormBlock => afterSwitch
  | .eEacR11G11SnormBlock => afterSwitch
  | .eAstc4x4UnormBlock => afterSwitch
  | .eAstc4x4SrgbBlock => afterSwitch
  | .eAstc5x4UnormBlock => afterSwitch
  | .eAstc5x4SrgbBlock => afterSwitch
  | .eAstc5x5UnormBlock => afterSwitch
  | .eAstc5x5SrgbBlock => afterSwitch
  | .eAstc6x5UnormBlock => afterSwitch
  | .eAstc6x5SrgbBlock => afterSwitch
  | .eAstc6x6UnormBlock => afterSwitch
  | .eAstc6x6SrgbBlock => afterSwitch
  | .eAstc8x5UnormBlock => afterSwitch
  | .eAstc8x5SrgbBlock => afterSwitch
  | .eAstc8x6UnormBlock => afterSwitch
  | .eAstc8x6SrgbBlock => afterSwitch
  | .eAstc8x8UnormBlock => afterSwitch
  | .eAstc8x8SrgbBlock => afterSwitch
  | .eAstc10x5UnormBlock => afterSwitch
  | .eAstc10x5SrgbBlock => afterSwitch
  | .eAstc10x6UnormBlock => afterSwitch
  | .eAstc10x6SrgbBlock => afterSwitch
  | .eAstc10x8UnormBlock => afterSwitch
  | .eAstc10x8SrgbBlock => afterSwitch
  | .eAstc10x10UnormBlock => afterSwitch
  | .eAstc10x10SrgbBlock => afterSwitch
  | .eAstc12x10UnormBlock => afterSwitch
  | .eAstc12x10SrgbBlock => afterSwitch
  | .eAstc12x12UnormBlock => afterSwitch
  | .eAstc12x12SrgbBlock => afterSwitch
  | .eG8B8G8R8422Unorm => afterSwitch
  | .eB8G8R8G8422Unorm => afterSwitch
  | .eG8B8R83Plane420Unorm => afterSwitch
  | .eG8B8R82Plane420Unorm => afterSwitch
  | .eG8B8R83Plane422Unorm => afterSwitch
  | .eG8B8R82Plane422Unorm => afterSwitch
  | .eG8B8R83Plane444Unorm => afterSwitch
  | .eR10X6UnormPack16 => afterSwitch
  | .eR10X6G10X6Unorm2Pack16 => afterSwitch
  | .eR10X6G10X6B10X6A10X6Unorm4Pack16 => afterSwitch
  | .eG10X6B10X6G10X6R10X6422Unorm4Pack16 => afterSwitch
  | .eB10X6G10X6R10X6G10X6422Unorm4Pack16 => afterSwitch
  | .eG10X6B10X6R10X63Plane420Unorm3Pack16 => afterSwitch
  | .eG10X6B10X6R10X62Plane420Unorm3Pack16 => afterSwitch
  | .eG10X6B10X6R10X63Plane422Unorm3Pack16 => afterSwitch
  | .eG10X6B10X6R10X62Plane422Unorm3Pack16 => afterSwitch
  | .eG10X6B10X6R10X63Plane444Unorm3Pack16 => afterSwitch
  | .eR12X4UnormPack16 => afterSwitch
  | .eR12X4G12X4Unorm2Pack16 => afterSwitch
  | .eR12X4G12X4B12X4A12X4Unorm4Pack16 => afterSwitch
  | .eG12X4B12X4G12X4R12X4422Unorm4Pack16 => afterSwitch
  | .eB12X4G12X4R12X4G12X4422Unorm4Pack16 => afterSwitch
  | .eG12X4B12X4R12X43Plane420Unorm3Pack16 => afterSwitch
  | .eG12X4B12X4R12X42Plane420Unorm3Pack16 => afterSwitch
  | .eG12X4B12X4R12X43Plane422Unorm3Pack16 => afterSwitch
  | .eG12X4B12X4R12X42Plane422Unorm3Pack16 => afterSwitch
  | .eG12X4B12X4R12X43Plane444Unorm3Pack16 => afterSwitch
  | .eG16B16G16R16422Unorm => afterSwitch
  | .eB16G16R16G16422Unorm => afterSwitch
  | .eG16B16R163Plane420Unorm => afterSwitch
  | .eG16B16R162Plane420Unorm => afterSwitch
  | .eG16B16R163Plane422Unorm => afterSwitch
  | .eG16B16R162Plane422Unorm => afterSwitch
  | .eG16B16R163Plane444Unorm => afterSwitch
  | .ePvrtc12BppUnormBlockIMG => afterSwitch
  | .ePvrtc14BppUnormBlockIMG => afterSwitch
  | .ePvrtc22BppUnormBlockIMG => afterSwitch
  | .ePvrtc24BppUnormBlockIMG => afterSwitch
  | .ePvrtc12BppSrgbBlockIMG => afterSwitch
  | .ePvrtc14BppSrgbBlockIMG => afterSwitch
  | .ePvrtc22BppSrgbBlockIMG => afterSwitch
  | .ePvrtc24BppSrgbBlockIMG => afterSwitch

/-- The formats whose case in the `switch` of `formatSize` ends in `break`: the packed 8-bit
and 16-bit formats, the block-compressed formats and the multi-planar and subsampled formats. -/
def notImplemented : List vk.Format :=
  [vk.Format.eR4G4UnormPack8, vk.Format.eR4G4B4A4UnormPack16, vk.Format.eB4G4R4A4UnormPack16,
   vk.Format.eR5G6B5UnormPack16, vk.Format.eB5G6R5UnormPack16, vk.Format.eR5G5B5A1UnormPack16,
   vk.Format.eB5G5R5A1UnormPack16, vk.Format.eA1R5G5B5UnormPack16, vk.Format.eBc1RgbUnormBlock,
   vk.Format.eBc1RgbSrgbBlock, vk.Format.eBc1RgbaUnormBlock, vk.Format.eBc1RgbaSrgbBlock,
   vk.Format.eBc2UnormBlock, vk.Format.eBc2SrgbBlock, vk.Format.eBc3UnormBlock,
   vk.Format.eBc3SrgbBlock, vk.Format.eBc4UnormBlock, vk.Format.eBc4SnormBlock,
   vk.Format.eBc5UnormBlock, vk.Format.eBc5SnormBlock, vk.Format.eBc6HUfloatBlock,
   vk.Format.eBc6HSfloatBlock, vk.Format.eBc7UnormBlock, vk.Format.eBc7SrgbBlock,
   vk.Format.eEtc2R8G8B8UnormBlock, vk.Format.eEtc2R8G8B8SrgbBlock,
   vk.Format.eEtc2R8G8B8A1UnormBlock, vk.Format.eEtc2R8G8B8A1SrgbBlock,
   vk.Format.eEtc2R8G8B8A8UnormBlock, vk.Format.eEtc2R8G8B8A8SrgbBlock,
   vk.Format.eEacR11UnormBlock, vk.Format.eEacR11SnormBlock, vk.Format.eEacR11G11UnormBlock,
   vk.Format.eEacR11G11SnormBlock, vk.Format.eAstc4x4UnormBlock, vk.Format.eAstc4x4SrgbBlock,
   vk.Format.eAstc5x4UnormBlock, vk.Format.eAstc5x4SrgbBlock, vk.Format.eAstc5x5UnormBlock,
   vk.Format.eAstc5x5SrgbBlock, vk.Format.eAstc6x5UnormBlock, vk.Format.eAstc6x5SrgbBlock,
   vk.Format.eAstc6x6UnormBlock, vk.Format.eAstc6x6SrgbBlock, vk.Format.eAstc8x5UnormBlock,
   vk.Format.eAstc8x5SrgbBlock, vk.Format.eAstc8x6UnormBlock, vk.Format.eAstc8x6SrgbBlock,
   vk.Format.eAstc8x8UnormBlock, vk.Format.eAstc8x8SrgbBlock, vk.Format.eAstc10x5UnormBlock,
   vk.Format.eAstc10x5SrgbBlock, vk.Format.eAstc10x6UnormBlock, vk.Format.eAstc10x6SrgbBlock,
   vk.Format.eAstc10x8UnormBlock, vk.Format.eAstc10x8SrgbBlock, vk.Format.eAstc10x10UnormBlock,
   vk.Format.eAstc10x10SrgbBlock, vk.Format.eAstc12x10UnormBlock, vk.Format.eAstc12x10SrgbBlock,
   vk.Format.eAstc12x12UnormBlock, vk.Format.eAstc12x12SrgbBlock, vk.Format.eG8B8G8R8422Unorm,
   vk.Format.eB8G8R8G8422Unorm, vk.Format.eG8B8R83Plane420Unorm, vk.Format.eG8B8R82Plane420Unorm,
   vk.Format.eG8B8R83Plane422Unorm, vk.Format.eG8B8R82Plane422Unorm,
   vk.Format.eG8B8R83Plane444Unorm, vk.Format.eR10X6UnormPack16,
   vk.Format.eR10X6G10X6Unorm2Pack16, vk.Format.eR10X6G10X6B10X6A10X6Unorm4Pack16,
   vk.Format.eG10X6B10X6G10X6R10X6422Unorm4Pack16,
   vk.Format.eB10X6G10X6R10X6G10X6422Unorm4Pack16,
   vk.Format.eG10X6B10X6R10X63Plane420Unorm3Pack16,
   vk.Format.eG10X6B10X6R10X62Plane420Unorm3Pack16,
   vk.Format.eG10X6B10X6R10X63Plane422Unorm3Pack16,
   vk.Format.eG10X6B10X6R10X62Plane422Unorm3Pack16,
   vk.Format.eG10X6B10X6R10X63Plane444Unorm3Pack16, vk.Format.eR12X4UnormPack16,
   vk.Format.eR12X4G12X4Unorm2Pack16, vk.Format.eR12X4G12X4B12X4A12X4Unorm4Pack16,
   vk.Format.eG12X4B12X4G12X4R12X4422Unorm4Pack16,
   vk.Format.eB12X4G12X4R12X4G12X4422Unorm4Pack16,
   vk.Format.eG12X4B12X4R12X43Plane420Unorm3Pack16,
   vk.Format.eG12X4B12X4R12X42Plane420Unorm3Pack16,
   vk.Format.eG12X4B12X4R12X43Plane422Unorm3Pack16,
   vk.Format.eG12X4B12X4R12X42Plane422Unorm3Pack16,
   vk.Format.eG12X4B12X4R12X43Plane444Unorm3Pack16, vk.Format.eG16B16G16R16422Unorm,
   vk.Format.eB16G16R16G16422Unorm, vk.Format.eG16B16R163Plane420Unorm,
   vk.Format.eG16B16R162Plane420Unorm, vk.Format.eG16B16R163Plane422Unorm,
   vk.Format.eG16B16R162Plane422Unorm, vk.Format.eG16B16R163Plane444Unorm,
   vk.Format.ePvrtc12BppUnormBlockIMG, vk.Format.ePvrtc14BppUnormBlockIMG,
   vk.Format.ePvrtc22BppUnormBlockIMG, vk.Format.ePvrtc24BppUnormBlockIMG,
   vk.Format.ePvrtc12BppSrgbBlockIMG, vk.Format.ePvrtc14BppSrgbBlockIMG,
   vk.Format.ePvrtc22BppSrgbBlockIMG, vk.Format.ePvrtc24BppSrgbBlockIMG]

/-! ## Refit entry points of the manager, and sequences of manager calls -/

namespace RaytracingBVH

/-- Modelled from the spec: `updateTop(cmd)` is declared in `RaytracingBVH.h` and defined
nowhere in `src/`. The spec has it delegate to the `update` of the top-level structure; the
argument is the instance list of the manager. -/
def updateTop (self : RaytracingBVH) (dc : DeviceContext) (cmd : CommandBuffer) : BVHStep :=
  match Ptr.deref self.topLevel with
  | Except.error f => { fault := some f, self := self, dc := dc, cmd := cmd }
  | Except.ok topLevel =>
    let r := topLevel.update_GeometryInstance dc cmd self.instances
    { fault := r.fault, self := { self with topLevel := some r.self }, dc := r.dc, cmd := r.cmd }

/-- Modelled from the spec: `updateBottom(cmd)` is declared in `RaytracingBVH.h` and defined
nowhere in `src/`. The spec has it delegate to the `update` of the bottom-level structure; the
argument is the geometry list of the manager. -/
def updateBottom (self : RaytracingBVH) (dc : DeviceContext) (cmd : CommandBuffer) : BVHStep :=
  match Ptr.deref self.bottomLevel with
  | Except.error f => { fault := some f, self := self, dc := dc, cmd := cmd }
  | Except.ok bottomLevel =>
    let r := bottomLevel.update_GeometryNV dc cmd self.geometries
    { fault := r.fault, self := { self with bottomLevel := some r.self }, dc := r.dc, cmd := r.cmd }

end RaytracingBVH

/-- One call of a member function of `RaytracingBVH` that changes state, with its argument. -/
inductive BVHCall where
  | setUpdatable (top : Bool) (bottom : Bool)
  | buildBottom (mesh : Mesh)
  | compactBottom
  | buildTop
  | updateBottom
  | updateTop
  deriving DecidableEq, Repr

/-- Performing one manager call. `setUpdatable` and `compactBottom` take no command buffer and
leave `cmd` as it is. -/
def BVHCall.apply (env : Env) (call : BVHCall) (self : RaytracingBVH) (dc : DeviceContext)
    (cmd : CommandBuffer) : BVHStep :=
  match call with
  | BVHCall.setUpdatable top bottom =>
    { fault := none, self := self.setUpdatable top bottom, dc := dc, cmd := cmd }
  | BVHCall.buildBottom mesh => self.buildBottom env dc cmd mesh
  | BVHCall.compactBottom =>
    let r := self.compactBottom env dc
    { fault := r.fault, self := r.self, dc := r.dc, cmd := cmd }
  | BVHCall.buildTop => self.buildTop env dc cmd
  | BVHCall.updateBottom => self.updateBottom dc cmd
  | BVHCall.updateTop => self.updateTop dc cmd

/-- Calling `buildBottom` once for each mesh of the list, in order; the calls end at the first
one that fails. -/
def buildBottomAll (env : Env) : List Mesh → RaytracingBVH → DeviceContext → CommandBuffer →
    BVHStep
  | [], self, dc, cmd => { fault := none, self := self, dc := dc, cmd := cmd }
  | mesh :: meshes, self, dc, cmd =>
    let r := self.buildBottom env dc cmd mesh
    match r.fault with
    | some _ => r
    | none => buildBottomAll env meshes r.self r.dc r.cmd

/-- The geometry count with which the last acceleration structure of the device was created. -/
def DeviceContext.lastGeometryCount (dc : DeviceContext) : Option Nat :=
  dc.structures.getLast?.map (fun entry => entry.2.info.geometryCount)

/-- The geometry count of the last build command recorded in a command buffer. -/
def lastBuildGeometryCount (cmd : CommandBuffer) : Option Nat :=
  cmd.reverse.findSome? fun c =>
    match c with
    | Command.buildAccelerationStructureNV info _ _ _ _ _ _ _ => some info.geometryCount
    | _ => none

/-- A mesh that `buildBottom` accepts: it has a vertex buffer, an index buffer, and a first
attribute of format `R32G32B32Sfloat`. -/
def Mesh.valid (mesh : Mesh) : Bool :=
  match mesh.vertexBuffer, mesh.indexBuffer, mesh.vertexLayout.attributes with
  | some _, some _, a :: _ => decide (a.format = vk.Format.eR32G32B32Sfloat)
  | _, _, _ => false

/-! ## The driver -/

/-- The member `bvh` of the record `Args`: the update mode given with `-b`. -/
structure Args where
  bvh : Int := 0
  deriving DecidableEq, Repr

/-- The class `MainApp`, as far as the BVH is concerned: the arguments, the mesh of the loaded
model, the manager `bvh` and the device state. `issued` is not a member of the class: it
lists, in order, the calls of `RaytracingBVH` member functions the driver has made. -/
structure MainApp where
  args : Args
  mesh : Mesh
  bvh : RaytracingBVH
  dc : DeviceContext
  issued : List BVHCall
  deriving DecidableEq, Repr

/-- The result of a piece of the driver: the fault that ended it, if any, the driver and the
command buffer it recorded into. -/
structure AppStep where
  fault : Option Fault
  self : MainApp
  cmd : CommandBuffer
  deriving DecidableEq, Repr

namespace MainApp

/-- Lines 66 to 68 of the constructor: `bvh->buildTop(cmd); cmd->end(); cmd->submit();`. -/
def buildTopAndSubmit (env : Env) (self : MainApp) (cmd : CommandBuffer) : AppStep :=
  let r := self.bvh.buildTop env self.dc cmd
  let issued := self.issued ++ [BVHCall.buildTop]
  match r.fault with
  | some f =>
    { fault := some f, self := { self with bvh := r.self, dc := r.dc, issued := issued }, cmd := r.cmd }
  | none =>
    { fault := none
      self := { self with bvh := r.self, dc := r.dc, issued := issued }
      cmd := r.cmd ++ [Command.end_, Command.submit] }

/-- The block of the constructor `MainApp::MainApp` that builds the BVH (lines 52 to 72, with
`rtx` defined as 1), for the arguments `args`, the mesh of the loaded model, the device state
and the command buffer `cmd`. The timing and the log line are left out. -/
def new (env : Env) (args : Args) (mesh : Mesh) (dc : DeviceContext) (cmd : CommandBuffer) :
    AppStep :=
  let cmd := cmd ++ [Command.begin]
  let bvh : RaytracingBVH := {}
  let bvh := bvh.setUpdatable (decide (args.bvh ≥ 1)) (decide (args.bvh ≥ 2))
  let issued := [BVHCall.setUpdatable (decide (args.bvh ≥ 1)) (decide (args.bvh ≥ 2))]
  let r := bvh.buildBottom env dc cmd mesh
  let issued := issued ++ [BVHCall.buildBottom mesh]
  let self : MainApp := { args := args, mesh := mesh, bvh := r.self, dc := r.dc, issued := issued }
  match r.fault with
  | some f => { fault := some f, self := self, cmd := r.cmd }
  | none =>
    if args.bvh = 0 then
      -- compact if static bvh
      let cmd := r.cmd ++ [Command.end_, Command.submit]
      let c := self.bvh.compactBottom env self.dc
      let self := { self with bvh := c.self, dc := c.dc, issued := self.issued ++ [BVHCall.compactBottom] }
      match c.fault with
      | some f => { fault := some f, self := self, cmd := cmd }
      | none => buildTopAndSubmit env self (cmd ++ [Command.begin])
    else
      buildTopAndSubmit env self r.cmd

/-- The statement `bvh->updateTop(cmd);` of `draw`. -/
def callUpdateTop (self : MainApp) (cmd : CommandBuffer) : AppStep :=
  let r := self.bvh.updateTop self.dc cmd
  { fault := r.fault
    self := { self with bvh := r.self, dc := r.dc, issued := self.issued ++ [BVHCall.updateTop] }
    cmd := r.cmd }

/-- The statement `bvh->updateBottom(cmd);` of `draw`. -/
def callUpdateBottom (self : MainApp) (cmd : CommandBuffer) : AppStep :=
  let r := self.bvh.updateBottom self.dc cmd
  { fault := r.fault
    self := { self with bvh := r.self, dc := r.dc, issued := self.issued ++ [BVHCall.updateBottom] }
    cmd := r.cmd }

/-- The member `draw()`, as far as the BVH is concerned: the two early returns (`closed` is
`window->isClosed()`, `valid` is `swapchain->isValid()`) and the block "BVH update" (lines
156 to 166) recorded into the command buffer `cmd` of the frame. The profiler and the render
passes are left out. -/
def draw (self : MainApp) (closed valid : Bool) (cmd : CommandBuffer) : AppStep :=
  if closed then { fault := none, self := self, cmd := cmd }
  else if !valid then { fault := none, self := self, cmd := cmd }
  else
    let s1 : AppStep :=
      if self.args.bvh = 1 then self.callUpdateTop cmd
      else { fault := none, self := self, cmd := cmd }
    match s1.fault with
    | some _ => s1
    | none =>
      let s2 : AppStep :=
        if s1.self.args.bvh = 2 then
          let u := s1.self.callUpdateBottom s1.cmd
          match u.fault with
          | some _ => u
          | none => u.self.callUpdateTop u.cmd
        else s1
      match s2.fault with
      | some _ => s2
      | none => { fault := none, self := s2.self, cmd := s2.cmd ++ [Command.debugBarrier] }

/-- Drawing one frame after the other, each into an empty command buffer; an item of the list
gives `window->isClosed()` and `swapchain->isValid()` for its frame. Drawing ends at the first
frame that fails. The result is the fault, if any, and the driver after the last frame. -/
def drawFrames : List (Bool × Bool) → MainApp → Option Fault × MainApp
  | [], self => (none, self)
  | frame :: frames, self =>
    let r := self.draw frame.1 frame.2 []
    match r.fault with
    | some f => (some f, r.self)
    | none => drawFrames frames r.self

end MainApp

/-- The BVH calls of a frame in update mode 2 that is drawn: none when the window is closed or
the swapchain is not valid. -/
def refitCalls (frame : Bool × Bool) : List BVHCall :=
  if frame.1 || !frame.2 then [] else [BVHCall.updateBottom, BVHCall.updateTop]

/-- The BVH calls of a list of frames in update mode 2. -/
def refitCallsOf : List (Bool × Bool) → List BVHCall
  | [] => []
  | frame :: frames => refitCalls frame ++ refitCallsOf frames

/-- A mesh whose first attribute is a 4 x 8-bit colour, not a position. -/
def meshColour : Mesh :=
  { meshTriangle with
    vertexLayout := { stride := 4, attributes := [{ format := vk.Format.eR8G8B8A8Unorm }] } }

/-- The manager after `setUpdatable(true, true)`, `buildBottom` of `meshTriangle` and
`buildTop`, on a new manager and a new device whose structures are constructed with
`updatable` false. -/
def bvhConfigured : BVHStep :=
  RaytracingBVH.buildTop envSmall
    (RaytracingBVH.buildBottom envSmall (RaytracingBVH.setUpdatable {} true true) {} []
      meshTriangle).self
    (RaytracingBVH.buildBottom envSmall (RaytracingBVH.setUpdatable {} true true) {} []
      meshTriangle).dc
    (RaytracingBVH.buildBottom envSmall (RaytracingBVH.setUpdatable {} true true) {} []
      meshTriangle).cmd

/-- The state of the driver in which both levels can be refitted: the update mode is 2 and
both structures exist, are updatable and have the buffers `update` uses. -/
def MainApp.Refittable (app : MainApp) : Prop :=
  app.args.bvh = 2 ∧
  ∃ b t sb st it,
    app.bvh.bottomLevel = some b ∧ b.updatable = true ∧ b.bufferScratch = some sb ∧
    app.bvh.topLevel = some t ∧ t.updatable = true ∧ t.bufferScratch = some st ∧
    t.bufferInstances = some it

/-- The driver after its constructor in update mode 2, with `meshTriangle`, on a new device
whose structures are constructed with `updatable` false. -/
def appRefit : AppStep :=
  MainApp.new envSmall { bvh := 2 } meshTriangle {} []

/-! ## Theorems -/

open AccelerationStructure

theorem uint_of_lt {n : Nat} (h : n < 2 ^ 32) : uint n = n := by
  unfold uint
  exact Nat.mod_eq_of_lt h

/-- C1 (as stated, refuted): on a device that reports a build-scratch requirement of `2 ^ 32`
bytes, `build` allocates a scratch buffer of size `0`, which is smaller than the requirement
reported for the structure it created. -/
theorem build_scratch_below_requirement :
    (build_GeometryNV envWide (AccelerationStructure.new envWide) {} [] []).self.structure_ = 1 ∧
    (build_GeometryNV envWide (AccelerationStructure.new envWide) {} [] []).self.bufferScratch
      = some { handle := 3, size := 0 } ∧
    envWide.memoryRequirements 1 vk.AccelerationStructureMemoryRequirementsTypeNV.eBuildScratch
      = 2 ^ 32 := by
  decide

/-- C1 (amended): when the device reports scratch requirements below `2 ^ 32`, the scratch buffer that
`build` allocates (geometry overload and instance overload) has the size
`max(build-scratch, update-scratch)` of the requirements of the created structure, so it is at
least the build-scratch and at least the update-scratch requirement. -/
theorem build_scratch_covers_requirements (env : Env) (self : AccelerationStructure)
    (dc : DeviceContext) (cmd : CommandBuffer) (geometries : List vk.GeometryNV)
    (instances : List vk.GeometryInstance)
    (hb : ∀ s, env.memoryRequirements s
      vk.AccelerationStructureMemoryRequirementsTypeNV.eBuildScratch < 2 ^ 32)
    (hu : ∀ s, env.memoryRequirements s
      vk.AccelerationStructureMemoryRequirementsTypeNV.eUpdateScratch < 2 ^ 32) :
    (∃ b, (self.build_GeometryNV env dc cmd geometries).self.bufferScratch = some b ∧
      b.size = max
        (env.memoryRequirements (self.build_GeometryNV env dc cmd geometries).self.structure_
          vk.AccelerationStructureMemoryRequirementsTypeNV.eBuildScratch)
        (env.memoryRequirements (self.build_GeometryNV env dc cmd geometries).self.structure_
          vk.AccelerationStructureMemoryRequirementsTypeNV.eUpdateScratch) ∧
      env.memoryRequirements (self.build_GeometryNV env dc cmd geometries).self.structure_
          vk.AccelerationStructureMemoryRequirementsTypeNV.eBuildScratch ≤ b.size ∧
      env.memoryRequirements (self.build_GeometryNV env dc cmd geometries).self.structure_
          vk.AccelerationStructureMemoryRequirementsTypeNV.eUpdateScratch ≤ b.size) ∧
    (∃ b, (self.build_GeometryInstance env dc cmd instances).self.bufferScratch = some b ∧
      b.size = max
        (env.memoryRequirements (self.build_GeometryInstance env dc cmd instances).self.structure_
          vk.AccelerationStructureMemoryRequirementsTypeNV.eBuildScratch)
        (env.memoryRequirements (self.build_GeometryInstance env dc cmd instances).self.structure_
          vk.AccelerationStructureMemoryRequirementsTypeNV.eUpdateScratch) ∧
      env.memoryRequirements (self.build_GeometryInstance env dc cmd instances).self.structure_
          vk.AccelerationStructureMemoryRequirementsTypeNV.eBuildScratch ≤ b.size ∧
      env.memoryRequirements (self.build_GeometryInstance env dc cmd instances).self.structure_
          vk.AccelerationStructureMemoryRequirementsTypeNV.eUpdateScratch ≤ b.size) := by
  have hmax : ∀ s, uint (max
      (env.memoryRequirements s vk.AccelerationStructureMemoryRequirementsTypeNV.eBuildScratch)
      (env.memoryRequirements s vk.AccelerationStructureMemoryRequirementsTypeNV.eUpdateScratch))
      = max
      (env.memoryRequirements s vk.AccelerationStructureMemoryRequirementsTypeNV.eBuildScratch)
      (env.memoryRequirements s vk.AccelerationStructureMemoryRequirementsTypeNV.eUpdateScratch) := by
    intro s
    exact uint_of_lt (max_lt (hb s) (hu s))
  refine ⟨⟨_, rfl, ?_, ?_, ?_⟩, ⟨_, rfl, ?_, ?_, ?_⟩⟩
  all_goals
    simp only [build_GeometryNV, build_GeometryInstance, DeviceContext.newBuffer,
      DeviceContext.createAccelerationStructureNV, Buffer.setData, hmax]
  · exact le_max_left _ _
  · exact le_max_right _ _
  · exact le_max_left _ _
  · exact le_max_right _ _

/-- C1 (witness): the device of `envSmall` reports scratch requirements below `2 ^ 32`, and
the scratch buffer built there covers both of them. -/
theorem build_scratch_covers_requirements_witness :
    (∀ s, envSmall.memoryRequirements s
      vk.AccelerationStructureMemoryRequirementsTypeNV.eBuildScratch < 2 ^ 32) ∧
    (∀ s, envSmall.memoryRequirements s
      vk.AccelerationStructureMemoryRequirementsTypeNV.eUpdateScratch < 2 ^ 32) ∧
    (∃ b, (build_GeometryNV envSmall (AccelerationStructure.new envSmall) {} [] []).self.bufferScratch
        = some b ∧
      envSmall.memoryRequirements
          (build_GeometryNV envSmall (AccelerationStructure.new envSmall) {} [] []).self.structure_
          vk.AccelerationStructureMemoryRequirementsTypeNV.eBuildScratch ≤ b.size ∧
      envSmall.memoryRequirements
          (build_GeometryNV envSmall (AccelerationStructure.new envSmall) {} [] []).self.structure_
          vk.AccelerationStructureMemoryRequirementsTypeNV.eUpdateScratch ≤ b.size) := by
  have hb : ∀ s, envSmall.memoryRequirements s
      vk.AccelerationStructureMemoryRequirementsTypeNV.eBuildScratch < 2 ^ 32 := by
    intro s
    simp [envSmall]
  have hu : ∀ s, envSmall.memoryRequirements s
      vk.AccelerationStructureMemoryRequirementsTypeNV.eUpdateScratch < 2 ^ 32 := by
    intro s
    simp [envSmall]
  refine ⟨hb, hu, ?_⟩
  obtain ⟨⟨b, h0, _, h1, h2⟩, _⟩ :=
    build_scratch_covers_requirements envSmall (AccelerationStructure.new envSmall) {} [] [] []
      hb hu
  exact ⟨b, h0, h1, h2⟩

/-- C2 (the code at the failing input): on the manager obtained by one `buildBottom`, two
calls of `buildTop` succeed and leave two instance descriptors in the instance list, numbered
0 and 1 and both carrying the handle of the one bottom-level structure, and the top-level
structure of the second call is built from both. -/
theorem buildTop_twice_doubles_instances :
    (buildTopTimes envSmall 2 bvhBuilt.self bvhBuilt.dc bvhBuilt.cmd).fault = none ∧
    (buildTopTimes envSmall 2 bvhBuilt.self bvhBuilt.dc bvhBuilt.cmd).self.instances.length = 2 ∧
    ((buildTopTimes envSmall 2 bvhBuilt.self bvhBuilt.dc bvhBuilt.cmd).self.instances.map
      (fun i => (i.instanceId, i.accelerationStructureHandle))) = [(0, 1001), (1, 1001)] ∧
    ((buildTopTimes envSmall 2 bvhBuilt.self bvhBuilt.dc bvhBuilt.cmd).self.topLevelInstances.map
      List.length) = some 2 := by
  decide

theorem buildTop_of_bottom (env : Env) (self : RaytracingBVH) (dc : DeviceContext)
    (cmd : CommandBuffer) (b : AccelerationStructure) (h : self.bottomLevel = some b) :
    (self.buildTop env dc cmd).fault = none ∧
    (self.buildTop env dc cmd).self.bottomLevel = some b ∧
    (self.buildTop env dc cmd).self.instances.length = self.instances.length + 1 ∧
    (self.buildTop env dc cmd).self.topLevelInstances = some (self.buildTop env dc cmd).self.instances := by
  simp [RaytracingBVH.buildTop, h, Ptr.deref, create_GeometryInstance, build_GeometryInstance,
    RaytracingBVH.topLevelInstances, Buffer.setData, DeviceContext.newBuffer,
    DeviceContext.createAccelerationStructureNV]

/-- General form of what the failing input of C2 shows: on every manager whose bottom level
was built, each call of `buildTop` succeeds and appends one instance descriptor: after the
`(k+1)`-th call the instance list has `k + 1` entries more than before the first call, and
the top-level structure of that call is built from the whole list. -/
theorem buildTop_appends_one_instance_each_call (env : Env) (k : Nat) (self : RaytracingBVH)
    (dc : DeviceContext) (cmd : CommandBuffer) (b : AccelerationStructure)
    (h : self.bottomLevel = some b) :
    (buildTopTimes env (k + 1) self dc cmd).fault = none ∧
    (buildTopTimes env (k + 1) self dc cmd).self.instances.length = self.instances.length + (k + 1) ∧
    (buildTopTimes env (k + 1) self dc cmd).self.topLevelInstances
      = some (buildTopTimes env (k + 1) self dc cmd).self.instances := by
  induction k generalizing self dc cmd with
  | zero =>
    obtain ⟨h1, _, h3, h4⟩ := buildTop_of_bottom env self dc cmd b h
    simp only [buildTopTimes, h1]
    exact ⟨trivial, h3, h4⟩
  | succ k ih =>
    obtain ⟨h1, h2, h3, _⟩ := buildTop_of_bottom env self dc cmd b h
    have := ih (self.buildTop env dc cmd).self (self.buildTop env dc cmd).dc
      (self.buildTop env dc cmd).cmd h2
    rw [buildTopTimes]
    simp only [h1]
    refine ⟨this.1, ?_, this.2.2⟩
    rw [this.2.1, h3]
    omega

/-- An instance of `buildTop_appends_one_instance_each_call`: on the manager obtained by one
`buildBottom`, the third `buildTop` leaves three instance descriptors. -/
theorem buildTop_appends_one_instance_each_call_witness :
    bvhBuilt.self.bottomLevel = some
      { updatable := false, structure_ := 1, handle := 1001,
        buffer := some { handle := 2, size := 1024 },
        bufferScratch := some { handle := 3, size := 256 } } ∧
    (buildTopTimes envSmall 3 bvhBuilt.self bvhBuilt.dc bvhBuilt.cmd).self.instances.length = 3 :=
  ⟨by decide,
   (buildTop_appends_one_instance_each_call envSmall 2 bvhBuilt.self bvhBuilt.dc bvhBuilt.cmd
      { updatable := false, structure_ := 1, handle := 1001,
        buffer := some { handle := 2, size := 1024 },
        bufferScratch := some { handle := 3, size := 256 } }
      (by decide)).2.1⟩

/-- C3: on a structure whose `updatable` flag is false, `update` (geometry overload and
instance overload) fails its assertion and changes nothing: the command buffer holds no new
build command and no new barrier, and the structure and the device state are as before. -/
theorem update_not_updatable_fails (self : AccelerationStructure) (dc : DeviceContext)
    (cmd : CommandBuffer) (geometries : List vk.GeometryNV) (instances : List vk.GeometryInstance)
    (h : self.updatable = false) :
    self.update_GeometryNV dc cmd geometries
      = { fault := some Fault.assertion, self := self, dc := dc, cmd := cmd } ∧
    self.update_GeometryInstance dc cmd instances
      = { fault := some Fault.assertion, self := self, dc := dc, cmd := cmd } := by
  simp [update_GeometryNV, update_GeometryInstance, nei_assert, h]

/-- C3 (witness): `update` on the non-updatable bottom level built by `bvhBuilt` fails and
leaves the command buffer as it was. -/
theorem update_not_updatable_fails_witness :
    (AccelerationStructure.new envSmall).updatable = false ∧
    (update_GeometryNV (AccelerationStructure.new envSmall) {} [Command.begin] []).fault
      = some Fault.assertion ∧
    (update_GeometryInstance (AccelerationStructure.new envSmall) {} [Command.begin] []).cmd
      = [Command.begin] :=
  ⟨rfl,
   congrArg Step.fault
     (update_not_updatable_fails (AccelerationStructure.new envSmall) {} [Command.begin] [] [] rfl).1,
   congrArg Step.cmd
     (update_not_updatable_fails (AccelerationStructure.new envSmall) {} [Command.begin] [] [] rfl).2⟩

/-- C4: on a structure on which `build` was not called (no Vulkan object, no scratch buffer),
`rebuild` (geometry overload and instance overload) fails, at the dereference of the null
scratch or instance buffer pointer, and records nothing: the command buffer, the structure and
the device state are as before. -/
theorem rebuild_before_build_fails (self : AccelerationStructure) (dc : DeviceContext)
    (cmd : CommandBuffer) (geometries : List vk.GeometryNV) (instances : List vk.GeometryInstance)
    (_h0 : self.structure_ = 0) (h : self.bufferScratch = none) :
    self.rebuild_GeometryNV dc cmd geometries
      = { fault := some Fault.nullPointer, self := self, dc := dc, cmd := cmd } ∧
    self.rebuild_GeometryInstance dc cmd instances
      = { fault := some Fault.nullPointer, self := self, dc := dc, cmd := cmd } := by
  constructor
  · simp [rebuild_GeometryNV, Ptr.deref, h]
  · cases hi : self.bufferInstances <;> simp [rebuild_GeometryInstance, Ptr.deref, h, hi]

/-- C4 (witness): `rebuild` on a newly constructed structure fails and records nothing. -/
theorem rebuild_before_build_fails_witness :
    (AccelerationStructure.new envSmall).structure_ = 0 ∧
    (AccelerationStructure.new envSmall).bufferScratch = none ∧
    (rebuild_GeometryNV (AccelerationStructure.new envSmall) {} [] []).fault
      = some Fault.nullPointer ∧
    (rebuild_GeometryInstance (AccelerationStructure.new envSmall) {} [] []).cmd = [] :=
  ⟨rfl, rfl,
   congrArg Step.fault
     (rebuild_before_build_fails (AccelerationStructure.new envSmall) {} [] [] [] rfl rfl).1,
   congrArg Step.cmd
     (rebuild_before_build_fails (AccelerationStructure.new envSmall) {} [] [] [] rfl rfl).2⟩

theorem run_update_GeometryNV (env : Env) (gs : List (List vk.GeometryNV))
    (self : AccelerationStructure) (dc : DeviceContext) (cmd : CommandBuffer) (scratch : Buffer)
    (hu : self.updatable = true) (hs : self.bufferScratch = some scratch) :
    (run env (gs.map Op.update_GeometryNV) self dc cmd).1 = gs.map Op.update_GeometryNV ∧
    (run env (gs.map Op.update_GeometryNV) self dc cmd).2.fault = none ∧
    (run env (gs.map Op.update_GeometryNV) self dc cmd).2.self = self ∧
    (run env (gs.map Op.update_GeometryNV) self dc cmd).2.dc = dc := by
  induction gs generalizing cmd with
  | nil => simp [run]
  | cons g gs ih =>
    have h1 : (Op.apply env (Op.update_GeometryNV g) self dc cmd).fault = none := by
      simp [Op.apply, update_GeometryNV, nei_assert, Ptr.deref, hu, hs]
    have h2 : (Op.apply env (Op.update_GeometryNV g) self dc cmd).self = self := by
      simp [Op.apply, update_GeometryNV, nei_assert, Ptr.deref, hu, hs]
    have h3 : (Op.apply env (Op.update_GeometryNV g) self dc cmd).dc = dc := by
      simp [Op.apply, update_GeometryNV, nei_assert, Ptr.deref, hu, hs]
    simp only [List.map_cons, run, h1, h2, h3]
    obtain ⟨i1, i2, i3, i4⟩ := ih (Op.apply env (Op.update_GeometryNV g) self dc cmd).cmd
    exact ⟨by rw [i1], i2, i3, i4⟩

theorem run_update_GeometryInstance (env : Env) (is : List (List vk.GeometryInstance))
    (self : AccelerationStructure) (dc : DeviceContext) (cmd : CommandBuffer)
    (scratch inst : Buffer)
    (hu : self.updatable = true) (hs : self.bufferScratch = some scratch)
    (hi : self.bufferInstances = some inst) :
    (run env (is.map Op.update_GeometryInstance) self dc cmd).1 = is.map Op.update_GeometryInstance ∧
    (run env (is.map Op.update_GeometryInstance) self dc cmd).2.fault = none ∧
    (run env (is.map Op.update_GeometryInstance) self dc cmd).2.self = self ∧
    (run env (is.map Op.update_GeometryInstance) self dc cmd).2.dc = dc := by
  induction is generalizing cmd with
  | nil => simp [run]
  | cons g gs ih =>
    have h1 : (Op.apply env (Op.update_GeometryInstance g) self dc cmd).fault = none := by
      simp [Op.apply, update_GeometryInstance, nei_assert, Ptr.deref, hu, hs, hi]
    have h2 : (Op.apply env (Op.update_GeometryInstance g) self dc cmd).self = self := by
      simp [Op.apply, update_GeometryInstance, nei_assert, Ptr.deref, hu, hs, hi]
    have h3 : (Op.apply env (Op.update_GeometryInstance g) self dc cmd).dc = dc := by
      simp [Op.apply, update_GeometryInstance, nei_assert, Ptr.deref, hu, hs, hi]
    simp only [List.map_cons, run, h1, h2, h3]
    obtain ⟨i1, i2, i3, i4⟩ := ih (Op.apply env (Op.update_GeometryInstance g) self dc cmd).cmd
    exact ⟨by rw [i1], i2, i3, i4⟩

/-- C5: on an updatable structure, after `build` (geometry overload, respectively instance
overload) any number of successive `update` calls, each with any argument, all succeed and
leave the structure exactly as `build` left it: the same Vulkan object, handle, backing
buffer, scratch buffer and instance buffer with its uploaded contents. The device state is
unchanged as well; only the command buffer grows. -/
theorem update_keeps_structure (env : Env) (self : AccelerationStructure) (dc : DeviceContext)
    (cmd : CommandBuffer) (geometries : List vk.GeometryNV) (instances : List vk.GeometryInstance)
    (gs : List (List vk.GeometryNV)) (is : List (List vk.GeometryInstance))
    (h : self.updatable = true) :
    ((run env (gs.map Op.update_GeometryNV) (self.build_GeometryNV env dc cmd geometries).self
        (self.build_GeometryNV env dc cmd geometries).dc
        (self.build_GeometryNV env dc cmd geometries).cmd).1.length = gs.length ∧
     (run env (gs.map Op.update_GeometryNV) (self.build_GeometryNV env dc cmd geometries).self
        (self.build_GeometryNV env dc cmd geometries).dc
        (self.build_GeometryNV env dc cmd geometries).cmd).2.fault = none ∧
     (run env (gs.map Op.update_GeometryNV) (self.build_GeometryNV env dc cmd geometries).self
        (self.build_GeometryNV env dc cmd geometries).dc
        (self.build_GeometryNV env dc cmd geometries).cmd).2.self
        = (self.build_GeometryNV env dc cmd geometries).self ∧
     (run env (gs.map Op.update_GeometryNV) (self.build_GeometryNV env dc cmd geometries).self
        (self.build_GeometryNV env dc cmd geometries).dc
        (self.build_GeometryNV env dc cmd geometries).cmd).2.dc
        = (self.build_GeometryNV env dc cmd geometries).dc) ∧
    ((run env (is.map Op.update_GeometryInstance) (self.build_GeometryInstance env dc cmd instances).self
        (self.build_GeometryInstance env dc cmd instances).dc
        (self.build_GeometryInstance env dc cmd instances).cmd).1.length = is.length ∧
     (run env (is.map Op.update_GeometryInstance) (self.build_GeometryInstance env dc cmd instances).self
        (self.build_GeometryInstance env dc cmd instances).dc
        (self.build_GeometryInstance env dc cmd instances).cmd).2.fault = none ∧
     (run env (is.map Op.update_GeometryInstance) (self.build_GeometryInstance env dc cmd instances).self
        (self.build_GeometryInstance env dc cmd instances).dc
        (self.build_GeometryInstance env dc cmd instances).cmd).2.self
        = (self.build_GeometryInstance env dc cmd instances).self ∧
     (run env (is.map Op.update_GeometryInstance) (self.build_GeometryInstance env dc cmd instances).self
        (self.build_GeometryInstance env dc cmd instances).dc
        (self.build_GeometryInstance env dc cmd instances).cmd).2.dc
        = (self.build_GeometryInstance env dc cmd instances).dc) := by
  constructor
  · obtain ⟨h1, h2, h3, h4⟩ := run_update_GeometryNV env gs
      (self.build_GeometryNV env dc cmd geometries).self
      (self.build_GeometryNV env dc cmd geometries).dc
      (self.build_GeometryNV env dc cmd geometries).cmd _
      (by simpa [build_GeometryNV] using h) rfl
    exact ⟨by rw [h1, List.length_map], h2, h3, h4⟩
  · obtain ⟨h1, h2, h3, h4⟩ := run_update_GeometryInstance env is
      (self.build_GeometryInstance env dc cmd instances).self
      (self.build_GeometryInstance env dc cmd instances).dc
      (self.build_GeometryInstance env dc cmd instances).cmd _ _
      (by simpa [build_GeometryInstance] using h) rfl rfl
    exact ⟨by rw [h1, List.length_map], h2, h3, h4⟩

/-- C5 (witness): three refits of the top-level structure built on the updatable device leave
its handle at the value `build` stored. -/
theorem update_keeps_structure_witness :
    (AccelerationStructure.new envUpdatable).updatable = true ∧
    (run envUpdatable ([[], [], []].map Op.update_GeometryInstance)
        (build_GeometryInstance envUpdatable (AccelerationStructure.new envUpdatable) {} [] []).self
        (build_GeometryInstance envUpdatable (AccelerationStructure.new envUpdatable) {} [] []).dc
        (build_GeometryInstance envUpdatable (AccelerationStructure.new envUpdatable) {} [] []).cmd).2.self
      = (build_GeometryInstance envUpdatable (AccelerationStructure.new envUpdatable) {} [] []).self :=
  ⟨rfl,
   (update_keeps_structure envUpdatable (AccelerationStructure.new envUpdatable) {} [] [] []
      [] [[], [], []] rfl).2.2.2.1⟩

theorem compact_of_not_updatable (env : Env) (self : AccelerationStructure) (dc : DeviceContext)
    (h : self.updatable = false) :
    (compact env self dc).fault = none ∧
    (compact env self dc).self =
      { self with
        buffer := some
          { handle := dc.nextHandle + 2
            size := uint (env.memoryRequirements self.structure_
              vk.AccelerationStructureMemoryRequirementsTypeNV.eObject) }
        structure_ := dc.nextHandle + 1
        handle := env.handleOf (dc.nextHandle + 1) } ∧
    (compact env self dc).dc.structures = dc.structures ++
      [(dc.nextHandle + 1,
        { compactedSize := env.compactedSize self.structure_
          info := { type := vk.AccelerationStructureTypeNV.eBottomLevel, flags := 0 } })] ∧
    (compact env self dc).dc.destroyedStructures = dc.destroyedStructures ++ [self.structure_] ∧
    (compact env self dc).dc.nextHandle = dc.nextHandle + 3 := by
  simp [compact, nei_assert, h, DeviceContext.createQueryPool, DeviceContext.record,
    DeviceContext.destroyQueryPool, DeviceContext.createAccelerationStructureNV,
    DeviceContext.newBuffer, DeviceContext.bindAccelerationStructureMemoryNV,
    DeviceContext.destroyAccelerationStructureNV]

theorem build_GeometryNV_self (env : Env) (self : AccelerationStructure) (dc : DeviceContext)
    (cmd : CommandBuffer) (geometries : List vk.GeometryNV) :
    (self.build_GeometryNV env dc cmd geometries).fault = none ∧
    (self.build_GeometryNV env dc cmd geometries).self =
      { self with
        structure_ := dc.nextHandle
        buffer := some
          { handle := dc.nextHandle + 1
            size := uint (env.memoryRequirements dc.nextHandle
              vk.AccelerationStructureMemoryRequirementsTypeNV.eObject) }
        bufferScratch := some
          { handle := dc.nextHandle + 2
            size := uint (max
              (env.memoryRequirements dc.nextHandle
                vk.AccelerationStructureMemoryRequirementsTypeNV.eBuildScratch)
              (env.memoryRequirements dc.nextHandle
                vk.AccelerationStructureMemoryRequirementsTypeNV.eUpdateScratch)) }
        handle := env.handleOf dc.nextHandle } ∧
    (self.build_GeometryNV env dc cmd geometries).dc.nextHandle = dc.nextHandle + 3 ∧
    (self.build_GeometryNV env dc cmd geometries).dc.destroyedStructures = dc.destroyedStructures := by
  simp [build_GeometryNV, DeviceContext.createAccelerationStructureNV, DeviceContext.newBuffer,
    DeviceContext.bindAccelerationStructureMemoryNV]

/-- C6: for a non-updatable structure built by `build` (geometry overload), `compact`
succeeds and the backing buffer it installs is not larger than the backing buffer `build`
allocated. -/
theorem compact_backing_not_larger (env : Env) (self : AccelerationStructure) (dc : DeviceContext)
    (cmd : CommandBuffer) (geometries : List vk.GeometryNV) (h : self.updatable = false) :
    (compact env (self.build_GeometryNV env dc cmd geometries).self
        (self.build_GeometryNV env dc cmd geometries).dc).fault = none ∧
    ∃ before after,
      (self.build_GeometryNV env dc cmd geometries).self.buffer = some before ∧
      (compact env (self.build_GeometryNV env dc cmd geometries).self
        (self.build_GeometryNV env dc cmd geometries).dc).self.buffer = some after ∧
      after.size ≤ before.size := by
  obtain ⟨_, hb, _, _⟩ := build_GeometryNV_self env self dc cmd geometries
  have hu : (self.build_GeometryNV env dc cmd geometries).self.updatable = false := by
    rw [hb]
    exact h
  obtain ⟨hf, hc, _, _, _⟩ := compact_of_not_updatable env
    (self.build_GeometryNV env dc cmd geometries).self
    (self.build_GeometryNV env dc cmd geometries).dc hu
  refine ⟨hf, ?_⟩
  rw [hc]
  rw [hb]
  exact ⟨_, _, rfl, rfl, le_refl _⟩

/-- C6 (witness): on the small device the backing buffer has 1024 bytes before and after
`compact`. -/
theorem compact_backing_not_larger_witness :
    (AccelerationStructure.new envSmall).updatable = false ∧
    (compact envSmall (build_GeometryNV envSmall (AccelerationStructure.new envSmall) {} [] []).self
        (build_GeometryNV envSmall (AccelerationStructure.new envSmall) {} [] []).dc).fault = none :=
  ⟨rfl, (compact_backing_not_larger envSmall (AccelerationStructure.new envSmall) {} [] [] rfl).1⟩

theorem buildBottom_of_valid (env : Env) (self : RaytracingBVH) (dc : DeviceContext)
    (cmd : CommandBuffer) (mesh : Mesh) (vb ib : Buffer) (a : VertexAttribute)
    (rest : List VertexAttribute)
    (hv : mesh.vertexBuffer = some vb) (hi : mesh.indexBuffer = some ib)
    (ha : mesh.vertexLayout.attributes = a :: rest)
    (hf : a.format = vk.Format.eR32G32B32Sfloat) :
    (self.buildBottom env dc cmd mesh).fault = none ∧
    (self.buildBottom env dc cmd mesh).self.bottomLevel = some
      { updatable := env.updatable
        structure_ := dc.nextHandle
        buffer := some
          { handle := dc.nextHandle + 1
            size := uint (env.memoryRequirements dc.nextHandle
              vk.AccelerationStructureMemoryRequirementsTypeNV.eObject) }
        bufferScratch := some
          { handle := dc.nextHandle + 2
            size := uint (max
              (env.memoryRequirements dc.nextHandle
                vk.AccelerationStructureMemoryRequirementsTypeNV.eBuildScratch)
              (env.memoryRequirements dc.nextHandle
                vk.AccelerationStructureMemoryRequirementsTypeNV.eUpdateScratch)) }
        handle := env.handleOf dc.nextHandle } ∧
    (self.buildBottom env dc cmd mesh).self.instances = self.instances ∧
    (self.buildBottom env dc cmd mesh).dc.nextHandle = dc.nextHandle + 3 ∧
    (self.buildBottom env dc cmd mesh).dc.destroyedStructures = dc.destroyedStructures := by
  obtain ⟨h1, h2, h3, h4⟩ := build_GeometryNV_self env (AccelerationStructure.new env) dc cmd
    (self.geometries ++
      [{ geometryType := vk.GeometryTypeNV.eTriangles
         vertexData := vb.handle
         vertexOffset := mesh.vertexBufferOffset
         vertexCount := mesh.vertexCount
         vertexStride := mesh.vertexLayout.stride
         vertexFormat := vk.Format.eR32G32B32Sfloat
         indexData := ib.handle
         indexOffset := mesh.indexBufferOffset
         indexCount := mesh.indexCount
         indexType := vk.IndexType.eUint32
         transformData := 0
         transformOffset := 0
         flags := vk.GeometryFlagBitsNV.eOpaque }])
  simp only [RaytracingBVH.buildBottom, Ptr.deref, hv, hi, ha, hf, List.head?_cons, assert,
    decide_True, if_true, create_GeometryNV, h1, h2, h3, h4]
  simp [AccelerationStructure.new]

theorem compactBottom_of_bottom (env : Env) (self : RaytracingBVH) (dc : DeviceContext)
    (b : AccelerationStructure) (hb : self.bottomLevel = some b) (hu : b.updatable = false) :
    (self.compactBottom env dc).fault = none ∧
    (self.compactBottom env dc).self.bottomLevel = some
      { b with
        buffer := some
          { handle := dc.nextHandle + 2
            size := uint (env.memoryRequirements b.structure_
              vk.AccelerationStructureMemoryRequirementsTypeNV.eObject) }
        structure_ := dc.nextHandle + 1
        handle := env.handleOf (dc.nextHandle + 1) } ∧
    (self.compactBottom env dc).self.instances = self.instances ∧
    (self.compactBottom env dc).dc.structures = dc.structures ++
      [(dc.nextHandle + 1,
        { compactedSize := env.compactedSize b.structure_
          info := { type := vk.AccelerationStructureTypeNV.eBottomLevel, flags := 0 } })] ∧
    (self.compactBottom env dc).dc.destroyedStructures = dc.destroyedStructures ++ [b.structure_] ∧
    (self.compactBottom env dc).dc.nextHandle = dc.nextHandle + 3 := by
  obtain ⟨c1, c2, c3, c4, c5⟩ := compact_of_not_updatable env b dc hu
  simp only [RaytracingBVH.compactBottom, Ptr.deref, hb, c1, c2, c3, c4, c5]
  simp

theorem buildTop_instance (env : Env) (self : RaytracingBVH) (dc : DeviceContext)
    (cmd : CommandBuffer) (b : AccelerationStructure) (h : self.bottomLevel = some b) :
    ∃ inst, (self.buildTop env dc cmd).self.instances = self.instances ++ [inst] ∧
      inst.accelerationStructureHandle = b.handle := by
  refine ⟨{ transform := (mat4 1).take transformFloats
            instanceId := self.instances.length
            mask := 0xFF
            instanceOffset := 0
            flags := uint vk.GeometryInstanceFlagBitsNV.eTriangleCullDisable
            accelerationStructureHandle := b.getHandle }, ?_, ?_⟩
  · simp only [RaytracingBVH.buildTop, h, Ptr.deref]
  · rfl

/-- C7: in the sequence `buildBottom`, `compactBottom`, `buildTop` on a manager whose
structures are constructed non-updatable, with a mesh that passes the format check, all
three calls succeed; `compactBottom` replaces the Vulkan object of the bottom level by the
object it newly created with the compacted size, destroys the old object and stores the
handle queried for the new object; the instance descriptor appended by `buildTop` carries
that handle of the new object. -/
theorem buildTop_embeds_compacted_handle (env : Env) (self : RaytracingBVH) (dc : DeviceContext)
    (cmd cmdTop : CommandBuffer) (mesh : Mesh) (vb ib : Buffer) (a : VertexAttribute)
    (rest : List VertexAttribute) (s1 s3 : BVHStep) (s2 : BVHCompactStep)
    (hu : env.updatable = false)
    (hv : mesh.vertexBuffer = some vb) (hi : mesh.indexBuffer = some ib)
    (ha : mesh.vertexLayout.attributes = a :: rest)
    (hf : a.format = vk.Format.eR32G32B32Sfloat)
    (h1 : s1 = self.buildBottom env dc cmd mesh)
    (h2 : s2 = s1.self.compactBottom env s1.dc)
    (h3 : s3 = s2.self.buildTop env s2.dc cmdTop) :
    ∃ old new inst,
      s1.fault = none ∧ s1.self.bottomLevel = some old ∧
      s2.fault = none ∧ s2.self.bottomLevel = some new ∧
      new.structure_ ≠ old.structure_ ∧
      s2.dc.structures = s1.dc.structures ++
        [(new.structure_,
          { compactedSize := env.compactedSize old.structure_
            info := { type := vk.AccelerationStructureTypeNV.eBottomLevel, flags := 0 } })] ∧
      s2.dc.destroyedStructures = s1.dc.destroyedStructures ++ [old.structure_] ∧
      new.handle = env.handleOf new.structure_ ∧
      s3.fault = none ∧
      s3.self.instances = self.instances ++ [inst] ∧
      inst.accelerationStructureHandle = env.handleOf new.structure_ := by
  subst h1 h2 h3
  obtain ⟨b1, b2, b3, b4, _⟩ := buildBottom_of_valid env self dc cmd mesh vb ib a rest hv hi ha hf
  obtain ⟨c1, c2, c3, c4, c5, _⟩ := compactBottom_of_bottom env
    (self.buildBottom env dc cmd mesh).self (self.buildBottom env dc cmd mesh).dc _ b2 hu
  obtain ⟨t1, _, _, _⟩ := buildTop_of_bottom env _ _ cmdTop _ c2
  obtain ⟨inst, t2, t3⟩ := buildTop_instance env _ _ cmdTop _ c2
  refine ⟨_, _, inst, b1, b2, c1, c2, ?_, c4, c5, rfl, t1, ?_, ?_⟩
  · simp only [b4]
    omega
  · rw [t2, c3, b3]
  · rw [t3]

/-- C7 (witness): on a new manager with `meshTriangle`, the bottom level is object 1 before
and object 5 after compaction, and the instance of `buildTop` carries the handle 1005. -/
theorem buildTop_embeds_compacted_handle_witness :
    envSmall.updatable = false ∧
    meshTriangle.vertexBuffer = some { handle := 101, size := 36 } ∧
    meshTriangle.indexBuffer = some { handle := 102, size := 12 } ∧
    meshTriangle.vertexLayout.attributes = [{ format := vk.Format.eR32G32B32Sfloat }] ∧
    ∃ old new inst,
      ((bvhBuilt.self.compactBottom envSmall bvhBuilt.dc).self.buildTop envSmall
          (bvhBuilt.self.compactBottom envSmall bvhBuilt.dc).dc []).self.instances = [] ++ [inst] ∧
      bvhBuilt.self.bottomLevel = some old ∧
      (bvhBuilt.self.compactBottom envSmall bvhBuilt.dc).self.bottomLevel = some new ∧
      inst.accelerationStructureHandle = envSmall.handleOf new.structure_ := by
  refine ⟨rfl, rfl, rfl, rfl, ?_⟩
  obtain ⟨old, new, inst, _, h2, _, h4, _, _, _, _, _, h10, h11⟩ :=
    buildTop_embeds_compacted_handle envSmall {} {} [] [] meshTriangle
      { handle := 101, size := 36 } { handle := 102, size := 12 }
      { format := vk.Format.eR32G32B32Sfloat } [] bvhBuilt
      ((bvhBuilt.self.compactBottom envSmall bvhBuilt.dc).self.buildTop envSmall
          (bvhBuilt.self.compactBottom envSmall bvhBuilt.dc).dc [])
      (bvhBuilt.self.compactBottom envSmall bvhBuilt.dc)
      rfl rfl rfl rfl rfl rfl rfl rfl
  exact ⟨old, new, inst, h10, h2, h4, h11⟩

theorem apply_updatable (env : Env) (op : Op) (self : AccelerationStructure) (dc : DeviceContext)
    (cmd : CommandBuffer) : (op.apply env self dc cmd).self.updatable = self.updatable := by
  cases op with
  | build_GeometryNV g => rfl
  | build_GeometryInstance i => rfl
  | rebuild_GeometryNV g =>
    simp only [Op.apply, rebuild_GeometryNV]
    split <;> rfl
  | rebuild_GeometryInstance i =>
    simp only [Op.apply, rebuild_GeometryInstance]
    split
    · rfl
    · split <;> rfl
  | update_GeometryNV g =>
    simp only [Op.apply, update_GeometryNV]
    split
    · rfl
    · split <;> rfl
  | update_GeometryInstance i =>
    simp only [Op.apply, update_GeometryInstance]
    split
    · rfl
    · split
      · rfl
      · split <;> rfl
  | compact =>
    simp only [Op.apply, compact]
    split <;> rfl

theorem update_GeometryNV_updatable (self : AccelerationStructure) (dc : DeviceContext)
    (cmd : CommandBuffer) (g : List vk.GeometryNV) :
    self.updatable = true ∨ (self.update_GeometryNV dc cmd g).fault = some Fault.assertion := by
  cases h : self.updatable
  · right
    simp [update_GeometryNV, nei_assert, h]
  · left
    rfl

theorem update_GeometryInstance_updatable (self : AccelerationStructure) (dc : DeviceContext)
    (cmd : CommandBuffer) (i : List vk.GeometryInstance) :
    self.updatable = true ∨ (self.update_GeometryInstance dc cmd i).fault = some Fault.assertion := by
  cases h : self.updatable
  · right
    simp [update_GeometryInstance, nei_assert, h]
  · left
    rfl

theorem compact_not_updatable (env : Env) (self : AccelerationStructure) (dc : DeviceContext) :
    self.updatable = false ∨ (self.compact env dc).fault = some Fault.assertion := by
  cases h : self.updatable
  · left
    rfl
  · right
    simp [compact, nei_assert, h]

theorem run_successes (env : Env) (ops : List Op) (self : AccelerationStructure)
    (dc : DeviceContext) (cmd : CommandBuffer) :
    (self.updatable = true ∨ (run env ops self dc cmd).1.any Op.isUpdate = false) ∧
    (self.updatable = false ∨ (run env ops self dc cmd).1.any Op.isCompact = false) := by
  induction ops generalizing self dc cmd with
  | nil => simp [run]
  | cons op ops ih =>
    rw [run]
    cases hf : (op.apply env self dc cmd).fault with
    | some f => simp
    | none =>
      have hk := apply_updatable env op self dc cmd
      obtain ⟨i1, i2⟩ := ih (op.apply env self dc cmd).self (op.apply env self dc cmd).dc
        (op.apply env self dc cmd).cmd
      rw [hk] at i1 i2
      simp only [List.any_cons]
      constructor
      · rcases i1 with i1 | i1
        · exact Or.inl i1
        · cases h : self.updatable
          · right
            rw [i1, Bool.or_false]
            cases op with
            | update_GeometryNV g =>
              have := update_GeometryNV_updatable self dc cmd g
              simp [Op.apply, h] at hf this
              rw [this] at hf
              cases hf
            | update_GeometryInstance i =>
              have := update_GeometryInstance_updatable self dc cmd i
              simp [Op.apply, h] at hf this
              rw [this] at hf
              cases hf
            | _ => rfl
          · exact Or.inl rfl
      · rcases i2 with i2 | i2
        · exact Or.inl i2
        · cases h : self.updatable
          · exact Or.inl rfl
          · right
            rw [i2, Bool.or_false]
            cases op with
            | compact =>
              have := compact_not_updatable env self dc
              simp [Op.apply, h] at hf this
              rw [this] at hf
              cases hf
            | _ => rfl

/-- C8: on one structure, a run of `build`, `rebuild`, `update` and `compact` calls never
holds both a successful `update` and a successful `compact`: `update` fails its assertion
unless the flag `updatable` is true, `compact` fails its assertion unless it is false, and no
call changes the flag. -/
theorem refit_and_compaction_exclusive (env : Env) (ops : List Op) (self : AccelerationStructure)
    (dc : DeviceContext) (cmd : CommandBuffer) (g : List vk.GeometryNV)
    (i : List vk.GeometryInstance) (op : Op) :
    ((run env ops self dc cmd).1.any Op.isUpdate && (run env ops self dc cmd).1.any Op.isCompact)
      = false ∧
    (self.updatable = true ∨ (self.update_GeometryNV dc cmd g).fault = some Fault.assertion) ∧
    (self.updatable = true ∨ (self.update_GeometryInstance dc cmd i).fault = some Fault.assertion) ∧
    (self.updatable = false ∨ (self.compact env dc).fault = some Fault.assertion) ∧
    (op.apply env self dc cmd).self.updatable = self.updatable := by
  refine ⟨?_, update_GeometryNV_updatable self dc cmd g,
    update_GeometryInstance_updatable self dc cmd i, compact_not_updatable env self dc,
    apply_updatable env op self dc cmd⟩
  obtain ⟨h1, h2⟩ := run_successes env ops self dc cmd
  rcases h1 with h1 | h1
  · rcases h2 with h2 | h2
    · rw [h1] at h2
      cases h2
    · rw [h2, Bool.and_false]
  · rw [h1, Bool.false_and]

/-- C9 (as stated, refuted): the structure of `asCompacted` is non-updatable and was
compacted once (its object 1 was replaced by object 5). A second `compact()` is performed: it
succeeds, replaces object 5 by the new object 8 and destroys object 5. A `rebuild` after the
compaction is performed as well: it succeeds and records a build command and a barrier. -/
theorem compact_twice_is_performed :
    asCompacted.fault = none ∧ asCompacted.self.updatable = false ∧
    asBuilt.self.structure_ = 1 ∧ asCompacted.self.structure_ = 5 ∧
    (compact envSmall asCompacted.self asCompacted.dc).fault = none ∧
    (compact envSmall asCompacted.self asCompacted.dc).self.structure_ = 8 ∧
    (compact envSmall asCompacted.self asCompacted.dc).dc.destroyedStructures = [1, 5] ∧
    (rebuild_GeometryNV asCompacted.self asCompacted.dc [] []).fault = none ∧
    (rebuild_GeometryNV asCompacted.self asCompacted.dc [] []).cmd.length = 2 := by
  decide

/-- C9 (amended): the code keeps no record of a compaction. On a non-updatable structure that
was built and compacted, a further `compact()` passes the only check there is (the structure
is not updatable) and is performed again: a new object replaces the current one, which is
destroyed. A `rebuild` of the compacted structure is performed too: it records a build
command for the current object with the scratch buffer of `build`, followed by the barrier. -/
theorem compact_is_repeatable (env : Env) (self : AccelerationStructure) (dc : DeviceContext)
    (cmd cmd2 : CommandBuffer) (geometries geometries2 : List vk.GeometryNV)
    (b : Step) (c1 c2 : CompactStep)
    (h : self.updatable = false)
    (hb : b = self.build_GeometryNV env dc cmd geometries)
    (h1 : c1 = compact env b.self b.dc)
    (h2 : c2 = compact env c1.self c1.dc) :
    c1.fault = none ∧ c2.fault = none ∧
    c2.self.structure_ = c1.dc.nextHandle + 1 ∧
    c2.self.structure_ ≠ c1.self.structure_ ∧
    c2.dc.destroyedStructures = c1.dc.destroyedStructures ++ [c1.self.structure_] ∧
    c2.self.handle = env.handleOf c2.self.structure_ ∧
    (rebuild_GeometryNV c1.self c1.dc cmd2 geometries2).fault = none ∧
    (rebuild_GeometryNV c1.self c1.dc cmd2 geometries2).cmd = cmd2 ++
      [ Command.buildAccelerationStructureNV
          { type := vk.AccelerationStructureTypeNV.eBottomLevel
            flags := vk.BuildAccelerationStructureFlagBitsNV.eAllowCompaction
            geometryCount := uint geometries2.length
            pGeometries := geometries2
            instanceCount := 0 }
          0 0 false c1.self.structure_ 0 (dc.nextHandle + 2) 0
      , Command.memoryBarrier vk.PipelineStageFlagBits.eAccelerationStructureBuildNV
          vk.PipelineStageFlagBits.eAccelerationStructureBuildNV
          (vk.AccessFlagBits.eAccelerationStructureReadNV |||
            vk.AccessFlagBits.eAccelerationStructureWriteNV)
          (vk.AccessFlagBits.eAccelerationStructureReadNV |||
            vk.AccessFlagBits.eAccelerationStructureWriteNV) ] := by
  obtain ⟨_, b2, _, _⟩ := build_GeometryNV_self env self dc cmd geometries
  rw [← hb] at b2
  have hu : b.self.updatable = false := by rw [b2]; exact h
  obtain ⟨x1, x2, _, _, x5⟩ := compact_of_not_updatable env b.self b.dc hu
  rw [← h1] at x1 x2 x5
  have hu1 : c1.self.updatable = false := by rw [x2]; exact hu
  obtain ⟨y1, y2, _, y4, _⟩ := compact_of_not_updatable env c1.self c1.dc hu1
  rw [← h2] at y1 y2 y4
  have hs : c1.self.bufferScratch = some
      { handle := dc.nextHandle + 2
        size := uint (max
          (env.memoryRequirements dc.nextHandle
            vk.AccelerationStructureMemoryRequirementsTypeNV.eBuildScratch)
          (env.memoryRequirements dc.nextHandle
            vk.AccelerationStructureMemoryRequirementsTypeNV.eUpdateScratch)) } := by
    rw [x2, b2]
  refine ⟨x1, y1, by rw [y2], ?_, y4, by rw [y2], ?_, ?_⟩
  · rw [y2, x2]
    simp only [x5]
    omega
  · simp [rebuild_GeometryNV, Ptr.deref, hs]
  · simp [rebuild_GeometryNV, Ptr.deref, hs, hu1, barrier, CommandBuffer.memoryBarrier]

/-- C9 (witness): the second compaction of `asCompacted` succeeds. -/
theorem compact_is_repeatable_witness :
    (AccelerationStructure.new envSmall).updatable = false ∧
    (compact envSmall asCompacted.self asCompacted.dc).fault = none :=
  ⟨rfl,
   (compact_is_repeatable envSmall (AccelerationStructure.new envSmall) {} [] [] [] [] asBuilt
      asCompacted (compact envSmall asCompacted.self asCompacted.dc) rfl rfl rfl rfl).2.1⟩

/-- C10 (as stated, refuted): `build` of a top-level structure (instance overload) whose flag
`updatable` is false creates the Vulkan object with no build flag at all, not with
allow-compaction. -/
theorem build_top_level_without_flags :
    (AccelerationStructure.new envSmall).updatable = false ∧
    (build_GeometryInstance envSmall (AccelerationStructure.new envSmall) {} [] []).dc.structures
      = [(1, { compactedSize := 0
               info := { type := vk.AccelerationStructureTypeNV.eTopLevel
                         flags := 0
                         instanceCount := 0 } })] ∧
    (0 : Nat) ≠ vk.BuildAccelerationStructureFlagBitsNV.eAllowCompaction := by
  decide

/-- C10 (amended): `build` creates the Vulkan object with these build flags. Geometry overload
(bottom level): exactly allow-update when the structure is updatable, exactly
allow-compaction otherwise. Instance overload (top level): exactly allow-update when the
structure is updatable, no flag otherwise. -/
theorem build_flags (env : Env) (self : AccelerationStructure) (dc : DeviceContext)
    (cmd : CommandBuffer) (geometries : List vk.GeometryNV)
    (instances : List vk.GeometryInstance) :
    (self.build_GeometryNV env dc cmd geometries).dc.structures = dc.structures ++
      [((self.build_GeometryNV env dc cmd geometries).self.structure_,
        { compactedSize := 0
          info :=
            { type := vk.AccelerationStructureTypeNV.eBottomLevel
              flags := if self.updatable then vk.BuildAccelerationStructureFlagBitsNV.eAllowUpdate
                       else vk.BuildAccelerationStructureFlagBitsNV.eAllowCompaction
              geometryCount := uint geometries.length
              pGeometries := geometries
              instanceCount := 0 } })] ∧
    (self.build_GeometryInstance env dc cmd instances).dc.structures = dc.structures ++
      [((self.build_GeometryInstance env dc cmd instances).self.structure_,
        { compactedSize := 0
          info :=
            { type := vk.AccelerationStructureTypeNV.eTopLevel
              flags := if self.updatable then vk.BuildAccelerationStructureFlagBitsNV.eAllowUpdate
                       else 0
              instanceCount := uint instances.length } })] := by
  constructor
  · simp [build_GeometryNV, DeviceContext.createAccelerationStructureNV, DeviceContext.newBuffer,
      DeviceContext.bindAccelerationStructureMemoryNV]
  · simp [build_GeometryInstance, DeviceContext.createAccelerationStructureNV,
      DeviceContext.newBuffer, DeviceContext.bindAccelerationStructureMemoryNV]

theorem buildBottom_updatable (env : Env) (self : RaytracingBVH) (dc : DeviceContext)
    (cmd : CommandBuffer) (mesh : Mesh) (h : mesh.valid = true) :
    (self.buildBottom env dc cmd mesh).fault = none ∧
    ((self.buildBottom env dc cmd mesh).self.bottomLevel.map (fun a => a.updatable))
      = some env.updatable := by
  unfold Mesh.valid at h
  cases hv : mesh.vertexBuffer with
  | none => simp [hv] at h
  | some vb =>
    cases hi : mesh.indexBuffer with
    | none => simp [hv, hi] at h
    | some ib =>
      cases ha : mesh.vertexLayout.attributes with
      | nil => simp [hv, hi, ha] at h
      | cons a rest =>
        simp only [hv, hi, ha, decide_eq_true_eq] at h
        obtain ⟨h1, h2, _⟩ := buildBottom_of_valid env self dc cmd mesh vb ib a rest hv hi ha h
        rw [h2]
        exact ⟨h1, rfl⟩

theorem buildTop_updatable (env : Env) (self : RaytracingBVH) (dc : DeviceContext)
    (cmd : CommandBuffer) (b : AccelerationStructure) (h : self.bottomLevel = some b) :
    ((self.buildTop env dc cmd).self.topLevel.map (fun a => a.updatable)) = some env.updatable ∧
    (self.buildTop env dc cmd).self.bottomLevel = some b := by
  simp [RaytracingBVH.buildTop, h, Ptr.deref, create_GeometryInstance, build_GeometryInstance,
    AccelerationStructure.new]

/-- C11 (the code at the failing input): after `setUpdatable(true, true)`, `buildBottom` and
`buildTop` on a new manager, both flags of the manager are set, yet neither structure is
updatable, and `updateBottom` and `updateTop` fail their assertion. Whatever the arguments of
`setUpdatable` and whatever value `updatable` has in a newly constructed structure, both
structures come out with that value, not with the arguments of `setUpdatable`. -/
theorem setUpdatable_not_passed_on :
    (bvhConfigured.fault = none ∧
     bvhConfigured.self.updatableTop = true ∧ bvhConfigured.self.updatableBottom = true ∧
     (bvhConfigured.self.bottomLevel.map (fun a => a.updatable)) = some false ∧
     (bvhConfigured.self.topLevel.map (fun a => a.updatable)) = some false ∧
     (bvhConfigured.self.updateBottom bvhConfigured.dc bvhConfigured.cmd).fault
       = some Fault.assertion ∧
     (bvhConfigured.self.updateTop bvhConfigured.dc bvhConfigured.cmd).fault
       = some Fault.assertion) ∧
    (∀ (env : Env) (top bottom : Bool),
      ((RaytracingBVH.buildTop env
          (RaytracingBVH.buildBottom env (RaytracingBVH.setUpdatable {} top bottom) {} []
            meshTriangle).self
          (RaytracingBVH.buildBottom env (RaytracingBVH.setUpdatable {} top bottom) {} []
            meshTriangle).dc
          (RaytracingBVH.buildBottom env (RaytracingBVH.setUpdatable {} top bottom) {} []
            meshTriangle).cmd).self.bottomLevel.map (fun a => a.updatable)) = some env.updatable ∧
      ((RaytracingBVH.buildTop env
          (RaytracingBVH.buildBottom env (RaytracingBVH.setUpdatable {} top bottom) {} []
            meshTriangle).self
          (RaytracingBVH.buildBottom env (RaytracingBVH.setUpdatable {} top bottom) {} []
            meshTriangle).dc
          (RaytracingBVH.buildBottom env (RaytracingBVH.setUpdatable {} top bottom) {} []
            meshTriangle).cmd).self.topLevel.map (fun a => a.updatable)) = some env.updatable) := by
  refine ⟨by decide, ?_⟩
  intro env top bottom
  obtain ⟨_, h2⟩ := buildBottom_updatable env (RaytracingBVH.setUpdatable {} top bottom) {} []
    meshTriangle rfl
  cases hb : (RaytracingBVH.buildBottom env (RaytracingBVH.setUpdatable {} top bottom) {} []
      meshTriangle).self.bottomLevel with
  | none => simp [hb] at h2
  | some b =>
    rw [hb] at h2
    obtain ⟨t1, t2⟩ := buildTop_updatable env _ _
      (RaytracingBVH.buildBottom env (RaytracingBVH.setUpdatable {} top bottom) {} []
        meshTriangle).cmd b hb
    rw [t2]
    exact ⟨h2, t1⟩

/-- C12: on a manager whose bottom level was built, `buildTop` appends one instance
descriptor with: the transform `1 0 0 0 / 0 1 0 0 / 0 0 1 0` (the first 12 floats of the 4x4
identity, a 3x4 row-major identity), an instance id equal to the length of the instance list
before the call, the mask `0xFF`, the instance offset 0, the flags triangle-cull-disable, and
the handle stored in the bottom-level structure. -/
theorem buildTop_instance_descriptor (env : Env) (self : RaytracingBVH) (dc : DeviceContext)
    (cmd : CommandBuffer) (b : AccelerationStructure) (h : self.bottomLevel = some b) :
    (self.buildTop env dc cmd).fault = none ∧
    (self.buildTop env dc cmd).self.instances = self.instances ++
      [{ transform := [1, 0, 0, 0,  0, 1, 0, 0,  0, 0, 1, 0]
         instanceId := self.instances.length
         mask := 0xFF
         instanceOffset := 0
         flags := vk.GeometryInstanceFlagBitsNV.eTriangleCullDisable
         accelerationStructureHandle := b.handle }] := by
  obtain ⟨h1, _⟩ := buildTop_of_bottom env self dc cmd b h
  refine ⟨h1, ?_⟩
  simp only [RaytracingBVH.buildTop, h, Ptr.deref]
  rfl

/-- C12 (witness): the instance appended on the manager of `bvhBuilt` has id 0 and the handle
1001 of the bottom level. -/
theorem buildTop_instance_descriptor_witness :
    bvhBuilt.self.bottomLevel = some
      { updatable := false, structure_ := 1, handle := 1001,
        buffer := some { handle := 2, size := 1024 },
        bufferScratch := some { handle := 3, size := 256 } } ∧
    (bvhBuilt.self.buildTop envSmall bvhBuilt.dc bvhBuilt.cmd).self.instances = [] ++
      [{ transform := [1, 0, 0, 0,  0, 1, 0, 0,  0, 0, 1, 0]
         instanceId := 0
         mask := 0xFF
         instanceOffset := 0
         flags := vk.GeometryInstanceFlagBitsNV.eTriangleCullDisable
         accelerationStructureHandle := 1001 }] :=
  ⟨by decide,
   (buildTop_instance_descriptor envSmall bvhBuilt.self bvhBuilt.dc bvhBuilt.cmd
      { updatable := false, structure_ := 1, handle := 1001,
        buffer := some { handle := 2, size := 1024 },
        bufferScratch := some { handle := 3, size := 256 } }
      (by decide)).2⟩

/-- C13: for a mesh with a first vertex attribute `a`. If the format of `a` is not
`R32G32B32Sfloat`, `buildBottom` fails and changes nothing: the geometry list, the bottom-level
structure, the device state (no structure created) and the command buffer (nothing built)
are as before. If the format is `R32G32B32Sfloat` and the mesh has its vertex and index
buffer, `buildBottom` succeeds and appends one geometry descriptor of triangles whose vertex
buffer, vertex offset, vertex count, stride, index buffer, index offset and index count are
those of the mesh, with index type `Uint32` and the opaque flag, and the bottom-level
structure is the object newly created from the extended list. -/
theorem buildBottom_format_check (env : Env) (self : RaytracingBVH) (dc : DeviceContext)
    (cmd : CommandBuffer) (mesh : Mesh) (a : VertexAttribute) (rest : List VertexAttribute)
    (ha : mesh.vertexLayout.attributes = a :: rest) :
    (a.format ≠ vk.Format.eR32G32B32Sfloat →
      (self.buildBottom env dc cmd mesh).fault ≠ none ∧
      (self.buildBottom env dc cmd mesh).self = self ∧
      (self.buildBottom env dc cmd mesh).dc = dc ∧
      (self.buildBottom env dc cmd mesh).cmd = cmd) ∧
    (a.format = vk.Format.eR32G32B32Sfloat →
      ∀ vb ib, mesh.vertexBuffer = some vb → mesh.indexBuffer = some ib →
      (self.buildBottom env dc cmd mesh).fault = none ∧
      (self.buildBottom env dc cmd mesh).self.geometries = self.geometries ++
        [{ geometryType := vk.GeometryTypeNV.eTriangles
           vertexData := vb.handle
           vertexOffset := mesh.vertexBufferOffset
           vertexCount := mesh.vertexCount
           vertexStride := mesh.vertexLayout.stride
           vertexFormat := vk.Format.eR32G32B32Sfloat
           indexData := ib.handle
           indexOffset := mesh.indexBufferOffset
           indexCount := mesh.indexCount
           indexType := vk.IndexType.eUint32
           transformData := 0
           transformOffset := 0
           flags := vk.GeometryFlagBitsNV.eOpaque }] ∧
      ((self.buildBottom env dc cmd mesh).self.bottomLevel.map (fun s => s.structure_))
        = some dc.nextHandle ∧
      (self.buildBottom env dc cmd mesh).dc.structures = dc.structures ++
        [(dc.nextHandle,
          { compactedSize := 0
            info :=
              { type := vk.AccelerationStructureTypeNV.eBottomLevel
                flags := if env.updatable then vk.BuildAccelerationStructureFlagBitsNV.eAllowUpdate
                         else vk.BuildAccelerationStructureFlagBitsNV.eAllowCompaction
                geometryCount := uint (self.geometries.length + 1)
                pGeometries := (self.buildBottom env dc cmd mesh).self.geometries
                instanceCount := 0 } })]) := by
  constructor
  · intro hne
    cases hv : mesh.vertexBuffer with
    | none => simp [RaytracingBVH.buildBottom, Ptr.deref, hv]
    | some vb => simp [RaytracingBVH.buildBottom, Ptr.deref, hv, ha, assert, hne]
  · intro hf vb ib hv hi
    obtain ⟨h1, h2, _⟩ := buildBottom_of_valid env self dc cmd mesh vb ib a rest hv hi ha hf
    refine ⟨h1, ?_, by rw [h2]; rfl, ?_⟩
    · simp only [RaytracingBVH.buildBottom, Ptr.deref, hv, hi, ha, hf, List.head?_cons, assert,
        decide_True, if_true]
    · simp [RaytracingBVH.buildBottom, Ptr.deref, hv, hi, ha, hf, assert, create_GeometryNV,
        build_GeometryNV, DeviceContext.createAccelerationStructureNV, DeviceContext.newBuffer,
        DeviceContext.bindAccelerationStructureMemoryNV, AccelerationStructure.new]

/-- C13 (witness): `buildBottom` of `meshColour`, whose first attribute is an 8-bit colour,
fails and leaves a new manager as it was; `buildBottom` of `meshTriangle` succeeds and leaves
one geometry descriptor. -/
theorem buildBottom_format_check_witness :
    meshColour.vertexLayout.attributes = [{ format := vk.Format.eR8G8B8A8Unorm }] ∧
    meshTriangle.vertexLayout.attributes = [{ format := vk.Format.eR32G32B32Sfloat }] ∧
    (RaytracingBVH.buildBottom envSmall {} {} [] meshColour).self = {} ∧
    (RaytracingBVH.buildBottom envSmall {} {} [] meshTriangle).fault = none :=
  ⟨rfl, rfl,
   ((buildBottom_format_check envSmall {} {} [] meshColour
      { format := vk.Format.eR8G8B8A8Unorm } [] rfl).1 (by decide)).2.1,
   ((buildBottom_format_check envSmall {} {} [] meshTriangle
      { format := vk.Format.eR32G32B32Sfloat } [] rfl).2 rfl
      { handle := 101, size := 36 } { handle := 102, size := 12 } rfl rfl).1⟩

theorem valid_cases (mesh : Mesh) (h : mesh.valid = true) :
    ∃ vb ib a rest, mesh.vertexBuffer = some vb ∧ mesh.indexBuffer = some ib ∧
      mesh.vertexLayout.attributes = a :: rest ∧ a.format = vk.Format.eR32G32B32Sfloat := by
  unfold Mesh.valid at h
  cases hv : mesh.vertexBuffer with
  | none => simp [hv] at h
  | some vb =>
    cases hi : mesh.indexBuffer with
    | none => simp [hv, hi] at h
    | some ib =>
      cases ha : mesh.vertexLayout.attributes with
      | nil => simp [hv, hi, ha] at h
      | cons a rest =>
        simp only [hv, hi, ha, decide_eq_true_eq] at h
        exact ⟨vb, ib, a, rest, rfl, rfl, rfl, h⟩

theorem buildBottom_bottomLevel (env : Env) (self : RaytracingBVH) (dc : DeviceContext)
    (cmd : CommandBuffer) (mesh : Mesh) (h : mesh.valid = true) :
    (self.buildBottom env dc cmd mesh).fault = none ∧
    (self.buildBottom env dc cmd mesh).self.updatableTop = self.updatableTop ∧
    (self.buildBottom env dc cmd mesh).self.updatableBottom = self.updatableBottom ∧
    ∃ b sb, (self.buildBottom env dc cmd mesh).self.bottomLevel = some b ∧
      b.updatable = env.updatable ∧ b.bufferScratch = some sb := by
  obtain ⟨vb, ib, a, rest, hv, hi, ha, hf⟩ := valid_cases mesh h
  obtain ⟨h1, h2, _⟩ := buildBottom_of_valid env self dc cmd mesh vb ib a rest hv hi ha hf
  refine ⟨h1, ?_, ?_, _, _, h2, rfl, rfl⟩
  · simp [RaytracingBVH.buildBottom, Ptr.deref, hv, hi, ha, hf, assert]
  · simp [RaytracingBVH.buildBottom, Ptr.deref, hv, hi, ha, hf, assert]

theorem buildTop_topLevel (env : Env) (self : RaytracingBVH) (dc : DeviceContext)
    (cmd : CommandBuffer) (b : AccelerationStructure) (h : self.bottomLevel = some b) :
    (self.buildTop env dc cmd).fault = none ∧
    (self.buildTop env dc cmd).self.bottomLevel = some b ∧
    (self.buildTop env dc cmd).self.updatableTop = self.updatableTop ∧
    (self.buildTop env dc cmd).self.updatableBottom = self.updatableBottom ∧
    ∃ t st it, (self.buildTop env dc cmd).self.topLevel = some t ∧
      t.updatable = env.updatable ∧ t.bufferScratch = some st ∧ t.bufferInstances = some it := by
  obtain ⟨h1, h2, _, _⟩ := buildTop_of_bottom env self dc cmd b h
  refine ⟨h1, h2, ?_, ?_, ?_⟩
  · simp [RaytracingBVH.buildTop, h, Ptr.deref]
  · simp [RaytracingBVH.buildTop, h, Ptr.deref]
  · simp [RaytracingBVH.buildTop, h, Ptr.deref, create_GeometryInstance, build_GeometryInstance,
      AccelerationStructure.new]

theorem new_mode2 (env : Env) (mesh : Mesh) (dc : DeviceContext) (cmd : CommandBuffer)
    (hm : mesh.valid = true) (hu : env.updatable = true) :
    (MainApp.new env { bvh := 2 } mesh dc cmd).fault = none ∧
    (MainApp.new env { bvh := 2 } mesh dc cmd).self.issued =
      [BVHCall.setUpdatable true true, BVHCall.buildBottom mesh, BVHCall.buildTop] ∧
    (MainApp.new env { bvh := 2 } mesh dc cmd).self.Refittable := by
  obtain ⟨b1, _, _, b, sb, b2, b3, b4⟩ := buildBottom_bottomLevel env
    (RaytracingBVH.setUpdatable {} true true) dc (cmd ++ [Command.begin]) mesh hm
  obtain ⟨t1, t2, _, _, t, st, it, t3, t4, t5, t6⟩ := buildTop_topLevel env _
    (RaytracingBVH.buildBottom env (RaytracingBVH.setUpdatable {} true true) dc
      (cmd ++ [Command.begin]) mesh).dc
    (RaytracingBVH.buildBottom env (RaytracingBVH.setUpdatable {} true true) dc
      (cmd ++ [Command.begin]) mesh).cmd b b2
  have e1 : decide ((2 : Int) ≥ 1) = true := by decide
  have e2 : decide ((2 : Int) ≥ 2) = true := by decide
  have e3 : ¬ ((2 : Int) = 0) := by decide
  simp only [MainApp.new, e1, e2, e3, b1, if_false, MainApp.buildTopAndSubmit, t1]
  refine ⟨trivial, by simp, rfl, b, t, sb, st, it, t2, ?_, b4, t3, ?_, t5, t6⟩
  · rw [b3, hu]
  · rw [t4, hu]

theorem draw_refit (app : MainApp) (closed valid : Bool) (cmd : CommandBuffer)
    (h : app.Refittable) :
    (app.draw closed valid cmd).fault = none ∧
    (app.draw closed valid cmd).self.issued = app.issued ++ refitCalls (closed, valid) ∧
    (app.draw closed valid cmd).self.Refittable := by
  obtain ⟨hmode, b, t, sb, st, it, hb, hbu, hbs, ht, htu, hts, hti⟩ := h
  have e1 : ¬ ((2 : Int) = 1) := by decide
  cases closed with
  | true => simp [MainApp.draw, refitCalls, MainApp.Refittable, hmode, hb, ht, hbu, hbs, htu, hts, hti]
  | false =>
    cases valid with
    | false =>
      simp [MainApp.draw, refitCalls, MainApp.Refittable, hmode, hb, ht, hbu, hbs, htu, hts, hti]
    | true =>
      simp [MainApp.draw, refitCalls, MainApp.Refittable, hmode, e1, MainApp.callUpdateBottom,
        MainApp.callUpdateTop, RaytracingBVH.updateBottom, RaytracingBVH.updateTop, Ptr.deref,
        update_GeometryNV, update_GeometryInstance, nei_assert, hb, ht, hbu, hbs, htu, hts, hti]

theorem drawFrames_refit (frames : List (Bool × Bool)) (app : MainApp) (h : app.Refittable) :
    (MainApp.drawFrames frames app).1 = none ∧
    (MainApp.drawFrames frames app).2.issued = app.issued ++ refitCallsOf frames := by
  induction frames generalizing app with
  | nil => simp [MainApp.drawFrames, refitCallsOf]
  | cons frame frames ih =>
    obtain ⟨d1, d2, d3⟩ := draw_refit app frame.1 frame.2 [] h
    obtain ⟨i1, i2⟩ := ih (app.draw frame.1 frame.2 []).self d3
    simp only [MainApp.drawFrames, d1, refitCallsOf]
    refine ⟨i1, ?_⟩
    rw [i2, d2, List.append_assoc]

theorem new_mode2_any (env : Env) (mesh : Mesh) (dc : DeviceContext) (cmd : CommandBuffer)
    (hm : mesh.valid = true) :
    (MainApp.new env { bvh := 2 } mesh dc cmd).fault = none ∧
    (MainApp.new env { bvh := 2 } mesh dc cmd).self.issued =
      [BVHCall.setUpdatable true true, BVHCall.buildBottom mesh, BVHCall.buildTop] ∧
    (MainApp.new env { bvh := 2 } mesh dc cmd).self.args.bvh = 2 := by
  obtain ⟨b1, _, _, b, sb, b2, _, _⟩ := buildBottom_bottomLevel env
    (RaytracingBVH.setUpdatable {} true true) dc (cmd ++ [Command.begin]) mesh hm
  obtain ⟨t1, _⟩ := buildTop_topLevel env _
    (RaytracingBVH.buildBottom env (RaytracingBVH.setUpdatable {} true true) dc
      (cmd ++ [Command.begin]) mesh).dc
    (RaytracingBVH.buildBottom env (RaytracingBVH.setUpdatable {} true true) dc
      (cmd ++ [Command.begin]) mesh).cmd b b2
  have e1 : decide ((2 : Int) ≥ 1) = true := by decide
  have e2 : decide ((2 : Int) ≥ 2) = true := by decide
  have e3 : ¬ ((2 : Int) = 0) := by decide
  simp only [MainApp.new, e1, e2, e3, b1, if_false, MainApp.buildTopAndSubmit, t1]
  exact ⟨trivial, by simp, trivial⟩

theorem draw_mode2 (app : MainApp) (closed valid : Bool) (cmd : CommandBuffer)
    (h2 : app.args.bvh = 2) :
    (app.draw closed valid cmd).self.args.bvh = 2 ∧
    ∃ extra, (app.draw closed valid cmd).self.issued = app.issued ++ extra ∧
      extra <+: refitCalls (closed, valid) ∧
      ((app.draw closed valid cmd).fault = none → extra = refitCalls (closed, valid)) := by
  have m1 : ¬ ((2 : Int) = 1) := by decide
  by_cases hc : closed = true
  · exact ⟨by simp [MainApp.draw, hc, h2],
      [], by simp [MainApp.draw, hc], by simp, by simp [refitCalls, hc]⟩
  by_cases hv : valid = true
  swap
  · exact ⟨by simp [MainApp.draw, hc, hv, h2],
      [], by simp [MainApp.draw, hc, hv], by simp, by simp [refitCalls, hv]⟩
  cases hf : (app.bvh.updateBottom app.dc cmd).fault with
  | some f =>
    exact ⟨by simp [MainApp.draw, hc, hv, h2, m1, MainApp.callUpdateBottom, hf],
      [BVHCall.updateBottom],
      by simp [MainApp.draw, hc, hv, h2, m1, MainApp.callUpdateBottom, hf],
      by simp [refitCalls, hc, hv],
      by simp [MainApp.draw, hc, hv, h2, m1, MainApp.callUpdateBottom, hf]⟩
  | none =>
    cases hg : ((app.bvh.updateBottom app.dc cmd).self.updateTop
        (app.bvh.updateBottom app.dc cmd).dc (app.bvh.updateBottom app.dc cmd).cmd).fault with
    | some f =>
      exact ⟨by simp [MainApp.draw, hc, hv, h2, m1, MainApp.callUpdateBottom,
          MainApp.callUpdateTop, hf, hg],
        [BVHCall.updateBottom, BVHCall.updateTop],
        by simp [MainApp.draw, hc, hv, h2, m1, MainApp.callUpdateBottom, MainApp.callUpdateTop,
          hf, hg],
        by simp [refitCalls, hc, hv],
        by simp [refitCalls, hc, hv]⟩
    | none =>
      exact ⟨by simp [MainApp.draw, hc, hv, h2, m1, MainApp.callUpdateBottom,
          MainApp.callUpdateTop, hf, hg],
        [BVHCall.updateBottom, BVHCall.updateTop],
        by simp [MainApp.draw, hc, hv, h2, m1, MainApp.callUpdateBottom, MainApp.callUpdateTop,
          hf, hg],
        by simp [refitCalls, hc, hv],
        by simp [refitCalls, hc, hv]⟩

theorem drawFrames_mode2 (frames : List (Bool × Bool)) (app : MainApp) (h2 : app.args.bvh = 2) :
    ∃ calls, (MainApp.drawFrames frames app).2.issued = app.issued ++ calls ∧
      calls <+: refitCallsOf frames := by
  induction frames generalizing app with
  | nil => exact ⟨[], by simp [MainApp.drawFrames], by simp⟩
  | cons frame frames ih =>
    obtain ⟨d1, extra, d2, d3, d4⟩ := draw_mode2 app frame.1 frame.2 [] h2
    cases hf : (app.draw frame.1 frame.2 []).fault with
    | some f =>
      refine ⟨extra, by simp only [MainApp.drawFrames, hf]; exact d2, ?_⟩
      exact d3.trans (List.prefix_append _ _)
    | none =>
      obtain ⟨calls, i1, i2⟩ := ih (app.draw frame.1 frame.2 []).self d1
      refine ⟨extra ++ calls, ?_, ?_⟩
      · simp only [MainApp.drawFrames, hf]
        rw [i1, d2, List.append_assoc]
      · rw [d4 hf]
        exact (List.prefix_append_right_inj _).mpr i2

/-- The calls of the driver in update mode 2, in general (the order holds always, the whole
sequence only when the update calls return): with a mesh that passes the checks of
`buildBottom`, the constructor calls `setUpdatable(true, true)`, then `buildBottom`, then
`buildTop`, each once, successfully and with no `compactBottom`. The manager calls of the
frames that follow are `updateBottom` then `updateTop` for every frame that is drawn (window
open, swapchain valid) and none for a frame that is not drawn; when a call fails drawing ends
there, so the calls made are always a prefix of that sequence and `updateTop` never comes
before the `updateBottom` of its frame. When the structures are constructed updatable no call
fails and the calls made are the whole sequence, for any number of frames. -/
theorem mode2_refits_bottom_then_top (env : Env) (mesh : Mesh) (dc : DeviceContext)
    (cmd : CommandBuffer) (frames : List (Bool × Bool)) (hm : mesh.valid = true) :
    (MainApp.new env { bvh := 2 } mesh dc cmd).fault = none ∧
    (MainApp.new env { bvh := 2 } mesh dc cmd).self.issued =
      [BVHCall.setUpdatable true true, BVHCall.buildBottom mesh, BVHCall.buildTop] ∧
    (∃ calls,
      (MainApp.drawFrames frames (MainApp.new env { bvh := 2 } mesh dc cmd).self).2.issued =
        [BVHCall.setUpdatable true true, BVHCall.buildBottom mesh, BVHCall.buildTop] ++ calls ∧
      calls <+: refitCallsOf frames) ∧
    (env.updatable = true →
      (MainApp.drawFrames frames (MainApp.new env { bvh := 2 } mesh dc cmd).self).1 = none ∧
      (MainApp.drawFrames frames (MainApp.new env { bvh := 2 } mesh dc cmd).self).2.issued =
        [BVHCall.setUpdatable true true, BVHCall.buildBottom mesh, BVHCall.buildTop] ++
          refitCallsOf frames) ∧
    refitCalls (false, true) = [BVHCall.updateBottom, BVHCall.updateTop] ∧
    refitCalls (true, true) = [] ∧ refitCalls (false, false) = [] := by
  obtain ⟨a1, a2, a3⟩ := new_mode2_any env mesh dc cmd hm
  obtain ⟨calls, c1, c2⟩ := drawFrames_mode2 frames _ a3
  refine ⟨a1, a2, ⟨calls, by rw [c1, a2], c2⟩, ?_, rfl, rfl, rfl⟩
  intro hu
  obtain ⟨_, _, n3⟩ := new_mode2 env mesh dc cmd hm hu
  obtain ⟨f1, f2⟩ := drawFrames_refit frames _ n3
  exact ⟨f1, by rw [f2, a2]⟩

/-- An instance of `mode2_refits_bottom_then_top` on the updatable device with
`meshTriangle`: three calls at startup, then after two drawn frames and one skipped frame the
calls `updateBottom`, `updateTop`, `updateBottom`, `updateTop`. -/
theorem mode2_refits_bottom_then_top_witness :
    meshTriangle.valid = true ∧
    (MainApp.drawFrames [(false, true), (true, true), (false, true)]
        (MainApp.new envUpdatable { bvh := 2 } meshTriangle {} []).self).2.issued =
      [BVHCall.setUpdatable true true, BVHCall.buildBottom meshTriangle, BVHCall.buildTop] ++
        refitCallsOf [(false, true), (true, true), (false, true)] :=
  ⟨rfl,
   ((mode2_refits_bottom_then_top envUpdatable meshTriangle {} []
      [(false, true), (true, true), (false, true)] rfl).2.2.2.1 rfl).2⟩

/-- C14 (the code at the failing input): update mode 2 with `meshTriangle`, structures
constructed with `updatable` false. The constructor calls `setUpdatable(true, true)`,
`buildBottom` and `buildTop` and succeeds, and the bottom flag of the manager is true, but the
bottom-level structure is not updatable. The first frame drawn calls `updateBottom`, which
fails its assertion; `updateTop` is not called, in that frame or later. -/
theorem mode2_first_frame_fails :
    appRefit.fault = none ∧
    appRefit.self.issued =
      [BVHCall.setUpdatable true true, BVHCall.buildBottom meshTriangle, BVHCall.buildTop] ∧
    appRefit.self.bvh.updatableBottom = true ∧
    (appRefit.self.bvh.bottomLevel.map (fun a => a.updatable)) = some false ∧
    (appRefit.self.draw false true []).fault = some Fault.assertion ∧
    (appRefit.self.draw false true []).self.issued =
      [BVHCall.setUpdatable true true, BVHCall.buildBottom meshTriangle, BVHCall.buildTop,
        BVHCall.updateBottom] ∧
    (appRefit.self.draw false true []).cmd = [] ∧
    (MainApp.drawFrames [(false, true), (false, true)] appRefit.self).1 = some Fault.assertion ∧
    (MainApp.drawFrames [(false, true), (false, true)] appRefit.self).2.issued =
      [BVHCall.setUpdatable true true, BVHCall.buildBottom meshTriangle, BVHCall.buildTop,
        BVHCall.updateBottom] := by
  decide

theorem new_mode0 (env : Env) (mesh : Mesh) (dc : DeviceContext) (cmd : CommandBuffer)
    (hm : mesh.valid = true) (hu : env.updatable = false) :
    (MainApp.new env { bvh := 0 } mesh dc cmd).fault = none ∧
    (MainApp.new env { bvh := 0 } mesh dc cmd).self.issued =
      [BVHCall.setUpdatable false false, BVHCall.buildBottom mesh, BVHCall.compactBottom,
        BVHCall.buildTop] ∧
    (MainApp.new env { bvh := 0 } mesh dc cmd).self.args.bvh = 0 ∧
    (MainApp.new env { bvh := 0 } mesh dc cmd).self.bvh.updatableTop = false ∧
    (MainApp.new env { bvh := 0 } mesh dc cmd).self.bvh.updatableBottom = false := by
  obtain ⟨b1, b5, b6, b, sb, b2, b3, _⟩ := buildBottom_bottomLevel env
    (RaytracingBVH.setUpdatable {} false false) dc (cmd ++ [Command.begin]) mesh hm
  have hbu : b.updatable = false := by rw [b3, hu]
  obtain ⟨c1, c2, _⟩ := compactBottom_of_bottom env
    (RaytracingBVH.buildBottom env (RaytracingBVH.setUpdatable {} false false) dc
      (cmd ++ [Command.begin]) mesh).self
    (RaytracingBVH.buildBottom env (RaytracingBVH.setUpdatable {} false false) dc
      (cmd ++ [Command.begin]) mesh).dc b b2 hbu
  have c5 : (RaytracingBVH.compactBottom env
      (RaytracingBVH.buildBottom env (RaytracingBVH.setUpdatable {} false false) dc
        (cmd ++ [Command.begin]) mesh).self
      (RaytracingBVH.buildBottom env (RaytracingBVH.setUpdatable {} false false) dc
        (cmd ++ [Command.begin]) mesh).dc).self.updatableTop = false ∧
      (RaytracingBVH.compactBottom env
      (RaytracingBVH.buildBottom env (RaytracingBVH.setUpdatable {} false false) dc
        (cmd ++ [Command.begin]) mesh).self
      (RaytracingBVH.buildBottom env (RaytracingBVH.setUpdatable {} false false) dc
        (cmd ++ [Command.begin]) mesh).dc).self.updatableBottom = false := by
    simp only [RaytracingBVH.compactBottom, Ptr.deref, b2, b5, b6]
    exact ⟨rfl, rfl⟩
  obtain ⟨t1, _, t3, t4, _⟩ := buildTop_topLevel env _
    (RaytracingBVH.compactBottom env
      (RaytracingBVH.buildBottom env (RaytracingBVH.setUpdatable {} false false) dc
        (cmd ++ [Command.begin]) mesh).self
      (RaytracingBVH.buildBottom env (RaytracingBVH.setUpdatable {} false false) dc
        (cmd ++ [Command.begin]) mesh).dc).dc
    ((RaytracingBVH.buildBottom env (RaytracingBVH.setUpdatable {} false false) dc
        (cmd ++ [Command.begin]) mesh).cmd ++ [Command.end_, Command.submit] ++ [Command.begin])
    _ c2
  have e1 : decide ((0 : Int) ≥ 1) = false := by decide
  have e2 : decide ((0 : Int) ≥ 2) = false := by decide
  simp only [MainApp.new, e1, e2, b1, if_true, c1, MainApp.buildTopAndSubmit, t1]
  refine ⟨trivial, by simp, trivial, ?_, ?_⟩
  · rw [t3]
    exact c5.1
  · rw [t4]
    exact c5.2

theorem draw_static (app : MainApp) (closed valid : Bool) (cmd : CommandBuffer)
    (h1 : app.args.bvh ≠ 1) (h2 : app.args.bvh ≠ 2) :
    (app.draw closed valid cmd).fault = none ∧
    (app.draw closed valid cmd).self = app ∧
    (app.draw closed valid cmd).cmd =
      if closed || !valid then cmd else cmd ++ [Command.debugBarrier] := by
  cases closed <;> cases valid <;> simp [MainApp.draw, h1, h2]

theorem drawFrames_static (frames : List (Bool × Bool)) (app : MainApp)
    (h1 : app.args.bvh ≠ 1) (h2 : app.args.bvh ≠ 2) :
    MainApp.drawFrames frames app = (none, app) := by
  induction frames with
  | nil => rfl
  | cons frame frames ih =>
    obtain ⟨d1, d2, _⟩ := draw_static app frame.1 frame.2 [] h1 h2
    simp only [MainApp.drawFrames, d1, d2]
    exact ih

theorem buildTopAndSubmit_issued (env : Env) (app : MainApp) (cmd : CommandBuffer) :
    (MainApp.buildTopAndSubmit env app cmd).self.issued = app.issued ++ [BVHCall.buildTop] := by
  cases h : (RaytracingBVH.buildTop env app.bvh app.dc cmd).fault <;>
    simp [MainApp.buildTopAndSubmit, h]

theorem new_without_compact (env : Env) (args : Args) (mesh : Mesh) (dc : DeviceContext)
    (cmd : CommandBuffer) (h : args.bvh ≠ 0) :
    BVHCall.compactBottom ∉ (MainApp.new env args mesh dc cmd).self.issued := by
  cases hf : (RaytracingBVH.buildBottom env
      (RaytracingBVH.setUpdatable {} (decide (args.bvh ≥ 1)) (decide (args.bvh ≥ 2))) dc
      (cmd ++ [Command.begin]) mesh).fault with
  | some f => simp [MainApp.new, hf]
  | none =>
    simp only [MainApp.new, hf, h, if_false]
    rw [buildTopAndSubmit_issued]
    simp

theorem draw_issued (app : MainApp) (closed valid : Bool) (cmd : CommandBuffer) :
    ∃ extra, (app.draw closed valid cmd).self.issued = app.issued ++ extra ∧
      BVHCall.compactBottom ∉ extra := by
  by_cases hc : closed = true
  · exact ⟨[], by simp [MainApp.draw, hc], by simp⟩
  by_cases hv : valid = true
  swap
  · exact ⟨[], by simp [MainApp.draw, hc, hv], by simp⟩
  by_cases m1 : app.args.bvh = 1
  · have m2 : ¬ ((1 : Int) = 2) := by decide
    cases hf : (app.bvh.updateTop app.dc cmd).fault with
    | some f =>
      exact ⟨[BVHCall.updateTop],
        by simp [MainApp.draw, hc, hv, m1, m2, MainApp.callUpdateTop, hf], by simp⟩
    | none =>
      exact ⟨[BVHCall.updateTop],
        by simp [MainApp.draw, hc, hv, m1, m2, MainApp.callUpdateTop, hf], by simp⟩
  by_cases m2 : app.args.bvh = 2
  · cases hf : (app.bvh.updateBottom app.dc cmd).fault with
    | some f =>
      exact ⟨[BVHCall.updateBottom],
        by simp [MainApp.draw, hc, hv, m1, m2, MainApp.callUpdateBottom, hf], by simp⟩
    | none =>
      cases hg : ((app.bvh.updateBottom app.dc cmd).self.updateTop
          (app.bvh.updateBottom app.dc cmd).dc (app.bvh.updateBottom app.dc cmd).cmd).fault with
      | some f =>
        exact ⟨[BVHCall.updateBottom, BVHCall.updateTop],
          by simp [MainApp.draw, hc, hv, m1, m2, MainApp.callUpdateBottom, MainApp.callUpdateTop,
            hf, hg], by simp⟩
      | none =>
        exact ⟨[BVHCall.updateBottom, BVHCall.updateTop],
          by simp [MainApp.draw, hc, hv, m1, m2, MainApp.callUpdateBottom, MainApp.callUpdateTop,
            hf, hg], by simp⟩
  · exact ⟨[], by simp [MainApp.draw, hc, hv, m1, m2], by simp⟩

theorem drawFrames_without_compact (frames : List (Bool × Bool)) (app : MainApp)
    (h : BVHCall.compactBottom ∉ app.issued) :
    BVHCall.compactBottom ∉ (MainApp.drawFrames frames app).2.issued := by
  induction frames generalizing app with
  | nil => exact h
  | cons frame frames ih =>
    obtain ⟨extra, e1, e2⟩ := draw_issued app frame.1 frame.2 []
    have hd : BVHCall.compactBottom ∉ (app.draw frame.1 frame.2 []).self.issued := by
      rw [e1]
      simp [h, e2]
    cases hf : (app.draw frame.1 frame.2 []).fault with
    | some f =>
      simp only [MainApp.drawFrames, hf]
      exact hd
    | none =>
      simp only [MainApp.drawFrames, hf]
      exact ih _ hd

/-- C15: with update mode 0, a mesh that passes the checks of `buildBottom`, and structures
that are constructed non-updatable, the constructor calls `setUpdatable(false, false)`, then
`buildBottom`, then `compactBottom`, then `buildTop`, each once, in that order and
successfully, and both flags of the manager are false; drawing any frames afterwards calls
no member of the manager and changes nothing in the driver, and the BVH block of a drawn
frame records only the debug barrier. In every mode other than 0, `compactBottom` is called
neither by the constructor nor by any frame. -/
theorem mode0_builds_compacts_once (env : Env) (mesh : Mesh) (dc : DeviceContext)
    (cmd frameCmd : CommandBuffer) (frames : List (Bool × Bool)) (args : Args)
    (hm : mesh.valid = true) (hu : env.updatable = false) (hb : args.bvh ≠ 0) :
    (MainApp.new env { bvh := 0 } mesh dc cmd).fault = none ∧
    (MainApp.new env { bvh := 0 } mesh dc cmd).self.issued =
      [BVHCall.setUpdatable false false, BVHCall.buildBottom mesh, BVHCall.compactBottom,
        BVHCall.buildTop] ∧
    (MainApp.new env { bvh := 0 } mesh dc cmd).self.bvh.updatableTop = false ∧
    (MainApp.new env { bvh := 0 } mesh dc cmd).self.bvh.updatableBottom = false ∧
    MainApp.drawFrames frames (MainApp.new env { bvh := 0 } mesh dc cmd).self =
      (none, (MainApp.new env { bvh := 0 } mesh dc cmd).self) ∧
    ((MainApp.new env { bvh := 0 } mesh dc cmd).self.draw false true frameCmd).cmd =
      frameCmd ++ [Command.debugBarrier] ∧
    BVHCall.compactBottom ∉
      (MainApp.drawFrames frames (MainApp.new env args mesh dc cmd).self).2.issued := by
  obtain ⟨n1, n2, n3, n4, n5⟩ := new_mode0 env mesh dc cmd hm hu
  have h1 : (MainApp.new env { bvh := 0 } mesh dc cmd).self.args.bvh ≠ 1 := by
    rw [n3]
    decide
  have h2 : (MainApp.new env { bvh := 0 } mesh dc cmd).self.args.bvh ≠ 2 := by
    rw [n3]
    decide
  refine ⟨n1, n2, n4, n5, drawFrames_static frames _ h1 h2, ?_,
    drawFrames_without_compact frames _ (new_without_compact env args mesh dc cmd hb)⟩
  rw [(draw_static _ false true frameCmd h1 h2).2.2]
  rfl

/-- C15 (witness): mode 0 on the small device with `meshTriangle` issues the four startup
calls; mode 1 never issues `compactBottom`. -/
theorem mode0_builds_compacts_once_witness :
    meshTriangle.valid = true ∧ envSmall.updatable = false ∧ ({ bvh := 1 } : Args).bvh ≠ 0 ∧
    (MainApp.new envSmall { bvh := 0 } meshTriangle {} []).self.issued =
      [BVHCall.setUpdatable false false, BVHCall.buildBottom meshTriangle, BVHCall.compactBottom,
        BVHCall.buildTop] :=
  ⟨rfl, rfl, by decide,
   (mode0_builds_compacts_once envSmall meshTriangle {} [] [] [(false, true)] { bvh := 1 }
      rfl rfl (by decide)).2.1⟩

/-- C16: `formatSize` returns for every format. For a format it does not size (a case of the
`switch` that ends in `break`, such as a packed 16-bit, a block-compressed or a multi-planar
format) it logs the error `NYI` and returns 0. For every other format except `eUndefined` it
returns a positive size and logs nothing, 12 for `eR32G32B32Sfloat`. For `eUndefined` it
returns 0 and logs nothing. -/
theorem formatSize_unsupported_logs (format : vk.Format) :
    (format ∈ notImplemented → formatSize format = (0, ["NYI"])) ∧
    (format ∉ notImplemented → format ≠ vk.Format.eUndefined →
      0 < (formatSize format).1 ∧ (formatSize format).2 = []) ∧
    formatSize vk.Format.eUndefined = (0, []) ∧
    formatSize vk.Format.eR32G32B32Sfloat = (12, []) ∧
    formatSize vk.Format.eR5G6B5UnormPack16 = (0, ["NYI"]) ∧
    formatSize vk.Format.eBc1RgbUnormBlock = (0, ["NYI"]) ∧
    formatSize vk.Format.eG8B8R83Plane420Unorm = (0, ["NYI"]) := by
  refine ⟨?_, ?_, rfl, rfl, rfl, rfl, rfl⟩
  · cases format <;> decide
  · cases format <;> decide

/-- C17 (as stated, refuted): `update` on the built, non-updatable structure of `asBuilt`
appends nothing to the command buffer (it fails its assertion); `rebuild` with an instance
list on that structure, which was built from a geometry list and has no instance buffer,
appends nothing; and `rebuild` on a newly constructed structure appends nothing either. -/
theorem update_and_rebuild_may_record_nothing :
    asBuilt.self.updatable = false ∧
    (update_GeometryNV asBuilt.self asBuilt.dc asBuilt.cmd []).cmd = asBuilt.cmd ∧
    (update_GeometryInstance asBuilt.self asBuilt.dc asBuilt.cmd []).cmd = asBuilt.cmd ∧
    asBuilt.self.bufferInstances = none ∧
    (rebuild_GeometryInstance asBuilt.self asBuilt.dc asBuilt.cmd []).cmd = asBuilt.cmd ∧
    (rebuild_GeometryNV (AccelerationStructure.new envSmall) {} [] []).cmd = [] := by
  decide

/-- C17 (amended): `barrier` appends one memory barrier whose two stages are
acceleration-structure-build and whose two access masks are read|write. `build` (both
overloads, every structure) appends one build command with the refit flag false, no source
structure, the object it created as destination and the scratch buffer it allocated at offset
0, followed by the barrier; the instance overload also allocates the instance buffer the
command reads, the geometry overload leaves the instance buffer as it was. The geometry
overloads of `rebuild` and `update` act on every structure that has a scratch buffer, the
instance overloads on every structure that has a scratch buffer and an instance buffer:
there `rebuild` appends one build command with the refit flag false, no source, the current
object as destination and that scratch buffer at offset 0, followed by the barrier; `update`
appends, when the structure is updatable, one build command with the refit flag true, the
current object as source and destination and that scratch buffer at offset 0, followed by the
barrier, and nothing when it is not updatable. On a structure without scratch buffer no
`rebuild` and no `update` appends anything, and on a structure without instance buffer the
instance overloads of `rebuild` and `update` append nothing. -/
theorem build_rebuild_update_commands (env : Env) (self : AccelerationStructure)
    (dc : DeviceContext) (cmd : CommandBuffer) (geometries : List vk.GeometryNV)
    (instances : List vk.GeometryInstance) (scratch inst : Buffer) :
    barrier cmd = cmd ++
      [Command.memoryBarrier vk.PipelineStageFlagBits.eAccelerationStructureBuildNV
        vk.PipelineStageFlagBits.eAccelerationStructureBuildNV
        (vk.AccessFlagBits.eAccelerationStructureReadNV |||
          vk.AccessFlagBits.eAccelerationStructureWriteNV)
        (vk.AccessFlagBits.eAccelerationStructureReadNV |||
          vk.AccessFlagBits.eAccelerationStructureWriteNV)] ∧
    ((self.build_GeometryNV env dc cmd geometries).self.bufferScratch.map (fun b => b.handle))
      = some (dc.nextHandle + 2) ∧
    (self.build_GeometryNV env dc cmd geometries).cmd = barrier (cmd ++
      [Command.buildAccelerationStructureNV
        { type := vk.AccelerationStructureTypeNV.eBottomLevel
          flags := if self.updatable then vk.BuildAccelerationStructureFlagBitsNV.eAllowUpdate
                   else vk.BuildAccelerationStructureFlagBitsNV.eAllowCompaction
          geometryCount := uint geometries.length
          pGeometries := geometries
          instanceCount := 0 }
        0 0 false (self.build_GeometryNV env dc cmd geometries).self.structure_ 0
        (dc.nextHandle + 2) 0]) ∧
    ((self.build_GeometryInstance env dc cmd instances).self.bufferScratch.map (fun b => b.handle))
      = some (dc.nextHandle + 2) ∧
    (self.build_GeometryInstance env dc cmd instances).cmd = barrier (cmd ++
      [Command.buildAccelerationStructureNV
        { type := vk.AccelerationStructureTypeNV.eTopLevel
          flags := if self.updatable then vk.BuildAccelerationStructureFlagBitsNV.eAllowUpdate
                   else 0
          instanceCount := uint instances.length }
        (dc.nextHandle + 3) 0 false (self.build_GeometryInstance env dc cmd instances).self.structure_
        0 (dc.nextHandle + 2) 0]) ∧
    (self.bufferScratch = some scratch →
      (self.rebuild_GeometryNV dc cmd geometries).cmd = barrier (cmd ++
        [Command.buildAccelerationStructureNV
          { type := vk.AccelerationStructureTypeNV.eBottomLevel
            flags := if self.updatable then vk.BuildAccelerationStructureFlagBitsNV.eAllowUpdate
                     else vk.BuildAccelerationStructureFlagBitsNV.eAllowCompaction
            geometryCount := uint geometries.length
            pGeometries := geometries
            instanceCount := 0 }
          0 0 false self.structure_ 0 scratch.handle 0]) ∧
      (self.update_GeometryNV dc cmd geometries).cmd =
        if self.updatable then barrier (cmd ++
          [Command.buildAccelerationStructureNV
            { type := vk.AccelerationStructureTypeNV.eBottomLevel
              flags := vk.BuildAccelerationStructureFlagBitsNV.eAllowUpdate
              geometryCount := uint geometries.length
              pGeometries := geometries
              instanceCount := 0 }
            0 0 true self.structure_ self.structure_ scratch.handle 0])
        else cmd) ∧
    (self.bufferScratch = some scratch → self.bufferInstances = some inst →
      (self.rebuild_GeometryInstance dc cmd instances).cmd = barrier (cmd ++
        [Command.buildAccelerationStructureNV
          { type := vk.AccelerationStructureTypeNV.eTopLevel
            flags := if self.updatable then vk.BuildAccelerationStructureFlagBitsNV.eAllowUpdate
                     else 0
            instanceCount := uint instances.length }
          inst.handle 0 false self.structure_ 0 scratch.handle 0]) ∧
      (self.update_GeometryInstance dc cmd instances).cmd =
        if self.updatable then barrier (cmd ++
          [Command.buildAccelerationStructureNV
            { type := vk.AccelerationStructureTypeNV.eTopLevel
              flags := vk.BuildAccelerationStructureFlagBitsNV.eAllowUpdate
              instanceCount := uint instances.length }
            inst.handle 0 true self.structure_ self.structure_ scratch.handle 0])
        else cmd) ∧
    (self.build_GeometryNV env dc cmd geometries).self.bufferInstances = self.bufferInstances ∧
    ((self.build_GeometryInstance env dc cmd instances).self.bufferInstances.map
      (fun b => b.handle)) = some (dc.nextHandle + 3) ∧
    (self.bufferScratch = none →
      (self.rebuild_GeometryNV dc cmd geometries).cmd = cmd ∧
      (self.update_GeometryNV dc cmd geometries).cmd = cmd ∧
      (self.rebuild_GeometryInstance dc cmd instances).cmd = cmd ∧
      (self.update_GeometryInstance dc cmd instances).cmd = cmd) ∧
    (self.bufferInstances = none →
      (self.rebuild_GeometryInstance dc cmd instances).cmd = cmd ∧
      (self.update_GeometryInstance dc cmd instances).cmd = cmd) := by
  refine ⟨rfl, rfl, ?_, rfl, ?_, ?_, ?_, rfl, rfl, ?_, ?_⟩
  · simp [build_GeometryNV, DeviceContext.createAccelerationStructureNV, DeviceContext.newBuffer]
  · simp [build_GeometryInstance, DeviceContext.createAccelerationStructureNV,
      DeviceContext.newBuffer, Buffer.setData]
  · intro hs
    constructor
    · simp [rebuild_GeometryNV, Ptr.deref, hs]
    · cases hu : self.updatable <;> simp [update_GeometryNV, nei_assert, Ptr.deref, hs, hu]
  · intro hs hi
    constructor
    · simp [rebuild_GeometryInstance, Ptr.deref, hs, hi]
    · cases hu : self.updatable <;>
        simp [update_GeometryInstance, nei_assert, Ptr.deref, hs, hi, hu]
  · intro hs
    refine ⟨?_, ?_, ?_, ?_⟩
    · simp [rebuild_GeometryNV, Ptr.deref, hs]
    · cases hu : self.updatable <;> simp [update_GeometryNV, nei_assert, Ptr.deref, hs, hu]
    · cases hi : self.bufferInstances <;> simp [rebuild_GeometryInstance, Ptr.deref, hs, hi]
    · cases hu : self.updatable <;> cases hi : self.bufferInstances <;>
        simp [update_GeometryInstance, nei_assert, Ptr.deref, hs, hi, hu]
  · intro hi
    constructor
    · simp [rebuild_GeometryInstance, Ptr.deref, hi]
    · cases hu : self.updatable <;>
        simp [update_GeometryInstance, nei_assert, Ptr.deref, hi, hu]

/-- C18: `compact` of a non-updatable structure, carried out on a device `later` whose object
requirement for the structure built before is the one reported at `build`, installs a backing
buffer whose size is the object requirement of the structure as it was before the compaction
(not of the newly created object), narrowed to 32 bits. The size is the same whatever
compacted size the query pool returns, and it equals the size of the backing buffer that
`build` allocated. -/
theorem compact_buffer_size (env later : Env) (self : AccelerationStructure) (dc : DeviceContext)
    (cmd : CommandBuffer) (geometries : List vk.GeometryNV) (compactedSize : Nat → Nat)
    (hu : self.updatable = false)
    (hreq : later.memoryRequirements (self.build_GeometryNV env dc cmd geometries).self.structure_
        vk.AccelerationStructureMemoryRequirementsTypeNV.eObject
      = env.memoryRequirements (self.build_GeometryNV env dc cmd geometries).self.structure_
        vk.AccelerationStructureMemoryRequirementsTypeNV.eObject) :
    ((compact later (self.build_GeometryNV env dc cmd geometries).self
        (self.build_GeometryNV env dc cmd geometries).dc).self.buffer.map (fun b => b.size))
      = some (uint (later.memoryRequirements
          (self.build_GeometryNV env dc cmd geometries).self.structure_
          vk.AccelerationStructureMemoryRequirementsTypeNV.eObject)) ∧
    (compact { later with compactedSize := compactedSize }
        (self.build_GeometryNV env dc cmd geometries).self
        (self.build_GeometryNV env dc cmd geometries).dc).self.buffer
      = (compact later (self.build_GeometryNV env dc cmd geometries).self
        (self.build_GeometryNV env dc cmd geometries).dc).self.buffer ∧
    ((compact later (self.build_GeometryNV env dc cmd geometries).self
        (self.build_GeometryNV env dc cmd geometries).dc).self.buffer.map (fun b => b.size))
      = (self.build_GeometryNV env dc cmd geometries).self.buffer.map (fun b => b.size) ∧
    (compact later (self.build_GeometryNV env dc cmd geometries).self
        (self.build_GeometryNV env dc cmd geometries).dc).self.structure_
      ≠ (self.build_GeometryNV env dc cmd geometries).self.structure_ := by
  obtain ⟨_, hb, hn, _⟩ := build_GeometryNV_self env self dc cmd geometries
  have hu2 : (self.build_GeometryNV env dc cmd geometries).self.updatable = false := by
    rw [hb]
    exact hu
  obtain ⟨_, c2, _⟩ := compact_of_not_updatable later
    (self.build_GeometryNV env dc cmd geometries).self
    (self.build_GeometryNV env dc cmd geometries).dc hu2
  obtain ⟨_, d2, _⟩ := compact_of_not_updatable { later with compactedSize := compactedSize }
    (self.build_GeometryNV env dc cmd geometries).self
    (self.build_GeometryNV env dc cmd geometries).dc hu2
  refine ⟨by rw [c2]; rfl, by rw [c2, d2], ?_, ?_⟩
  · rw [c2]
    simp only [Option.map_some']
    rw [hreq, hb]
    rfl
  · rw [c2]
    simp only [hn]
    rw [hb]
    simp only [ne_eq]
    omega

/-- C18 (witness): on the small device the backing buffer has 1024 bytes after `compact`,
the object requirement, although the compacted size read back is 512. -/
theorem compact_buffer_size_witness :
    (AccelerationStructure.new envSmall).updatable = false ∧
    envSmall.compactedSize 1 = 512 ∧
    (asCompacted.self.buffer.map (fun b => b.size)) = some (uint 1024) :=
  ⟨rfl, rfl,
   (compact_buffer_size envSmall envSmall (AccelerationStructure.new envSmall) {} [] []
      (fun _ => 0) rfl rfl).1⟩

theorem buildBottom_appends (env : Env) (self : RaytracingBVH) (dc : DeviceContext)
    (cmd : CommandBuffer) (mesh : Mesh) (h : mesh.valid = true) :
    (self.buildBottom env dc cmd mesh).fault = none ∧
    (∃ g, (self.buildBottom env dc cmd mesh).self.geometries = self.geometries ++ [g]) ∧
    (self.buildBottom env dc cmd mesh).dc.lastGeometryCount
      = some (uint (self.geometries.length + 1)) ∧
    lastBuildGeometryCount (self.buildBottom env dc cmd mesh).cmd
      = some (uint (self.geometries.length + 1)) := by
  obtain ⟨vb, ib, a, rest, hv, hi, ha, hf⟩ := valid_cases mesh h
  obtain ⟨h1, _⟩ := buildBottom_of_valid env self dc cmd mesh vb ib a rest hv hi ha hf
  refine ⟨h1,
    ⟨{ geometryType := vk.GeometryTypeNV.eTriangles
       vertexData := vb.handle
       vertexOffset := mesh.vertexBufferOffset
       vertexCount := mesh.vertexCount
       vertexStride := mesh.vertexLayout.stride
       vertexFormat := vk.Format.eR32G32B32Sfloat
       indexData := ib.handle
       indexOffset := mesh.indexBufferOffset
       indexCount := mesh.indexCount
       indexType := vk.IndexType.eUint32
       transformData := 0
       transformOffset := 0
       flags := vk.GeometryFlagBitsNV.eOpaque }, ?_⟩, ?_, ?_⟩
  · simp only [RaytracingBVH.buildBottom, Ptr.deref, hv, hi, ha, hf, List.head?_cons, assert,
      decide_True, if_true]
  · simp [RaytracingBVH.buildBottom, Ptr.deref, hv, hi, ha, hf, assert, create_GeometryNV,
      build_GeometryNV, DeviceContext.createAccelerationStructureNV, DeviceContext.newBuffer,
      DeviceContext.bindAccelerationStructureMemoryNV, DeviceContext.lastGeometryCount]
  · simp [RaytracingBVH.buildBottom, Ptr.deref, hv, hi, ha, hf, assert, create_GeometryNV,
      build_GeometryNV, DeviceContext.createAccelerationStructureNV, DeviceContext.newBuffer,
      lastBuildGeometryCount, barrier, CommandBuffer.memoryBarrier]

theorem buildBottom_keeps (env : Env) (self : RaytracingBVH) (dc : DeviceContext)
    (cmd : CommandBuffer) (mesh : Mesh) :
    self.geometries <+: (self.buildBottom env dc cmd mesh).self.geometries := by
  cases hv : mesh.vertexBuffer with
  | none => simp [RaytracingBVH.buildBottom, Ptr.deref, hv]
  | some vb =>
    cases ha : mesh.vertexLayout.attributes with
    | nil => simp [RaytracingBVH.buildBottom, Ptr.deref, hv, ha]
    | cons a rest =>
      by_cases hf : a.format = vk.Format.eR32G32B32Sfloat
      · cases hi : mesh.indexBuffer with
        | none => simp [RaytracingBVH.buildBottom, Ptr.deref, hv, ha, hf, hi, assert]
        | some ib => simp [RaytracingBVH.buildBottom, Ptr.deref, hv, ha, hf, hi, assert]
      · simp [RaytracingBVH.buildBottom, Ptr.deref, hv, ha, hf, assert]

theorem apply_keeps_geometries (env : Env) (call : BVHCall) (self : RaytracingBVH)
    (dc : DeviceContext) (cmd : CommandBuffer) :
    self.geometries <+: (call.apply env self dc cmd).self.geometries := by
  cases call with
  | setUpdatable top bottom => simp [BVHCall.apply, RaytracingBVH.setUpdatable]
  | buildBottom mesh => exact buildBottom_keeps env self dc cmd mesh
  | compactBottom =>
    cases hb : self.bottomLevel <;> simp [BVHCall.apply, RaytracingBVH.compactBottom, Ptr.deref, hb]
  | buildTop =>
    cases hb : self.bottomLevel <;> simp [BVHCall.apply, RaytracingBVH.buildTop, Ptr.deref, hb]
  | updateBottom =>
    cases hb : self.bottomLevel <;> simp [BVHCall.apply, RaytracingBVH.updateBottom, Ptr.deref, hb]
  | updateTop =>
    cases hb : self.topLevel <;> simp [BVHCall.apply, RaytracingBVH.updateTop, Ptr.deref, hb]

theorem buildBottomAll_append (env : Env) (meshes : List Mesh) (mesh : Mesh)
    (self : RaytracingBVH) (dc : DeviceContext) (cmd : CommandBuffer)
    (h : (buildBottomAll env meshes self dc cmd).fault = none) :
    buildBottomAll env (meshes ++ [mesh]) self dc cmd =
      RaytracingBVH.buildBottom env (buildBottomAll env meshes self dc cmd).self
        (buildBottomAll env meshes self dc cmd).dc (buildBottomAll env meshes self dc cmd).cmd
        mesh := by
  induction meshes generalizing self dc cmd with
  | nil =>
    simp only [List.nil_append, buildBottomAll]
    generalize RaytracingBVH.buildBottom env self dc cmd mesh = r
    cases r with
    | mk f s d c => cases f <;> rfl
  | cons m ms ih =>
    simp only [List.cons_append, buildBottomAll] at h ⊢
    cases hf : (RaytracingBVH.buildBottom env self dc cmd m).fault with
    | some f =>
      rw [hf] at h
      simp only at h
      rw [hf] at h
      cases h
    | none =>
      rw [hf] at h
      simp only at h ⊢
      exact ih _ _ _ h

theorem buildBottomAll_valid (env : Env) (meshes : List Mesh) (self : RaytracingBVH)
    (dc : DeviceContext) (cmd : CommandBuffer) (hv : ∀ m ∈ meshes, m.valid = true) :
    (buildBottomAll env meshes self dc cmd).fault = none ∧
    (buildBottomAll env meshes self dc cmd).self.geometries.length
      = self.geometries.length + meshes.length := by
  induction meshes generalizing self dc cmd with
  | nil => simp [buildBottomAll]
  | cons m ms ih =>
    obtain ⟨b1, ⟨g, b2⟩, _⟩ := buildBottom_appends env self dc cmd m (hv m (by simp))
    obtain ⟨i1, i2⟩ := ih (RaytracingBVH.buildBottom env self dc cmd m).self
      (RaytracingBVH.buildBottom env self dc cmd m).dc
      (RaytracingBVH.buildBottom env self dc cmd m).cmd
      (fun x hx => hv x (by simp [hx]))
    simp only [buildBottomAll, b1]
    refine ⟨i1, ?_⟩
    rw [i2, b2]
    simp only [List.length_append, List.length_cons, List.length_nil]
    omega

theorem buildBottomAll_last (env : Env) (meshes : List Mesh) (mesh : Mesh)
    (dc : DeviceContext) (cmd : CommandBuffer)
    (hv : ∀ m ∈ meshes, m.valid = true) (hm : mesh.valid = true) :
    (buildBottomAll env (meshes ++ [mesh]) {} dc cmd).fault = none ∧
    (buildBottomAll env (meshes ++ [mesh]) {} dc cmd).self.geometries.length = meshes.length + 1 ∧
    (buildBottomAll env meshes {} dc cmd).self.geometries <+:
      (buildBottomAll env (meshes ++ [mesh]) {} dc cmd).self.geometries ∧
    (buildBottomAll env (meshes ++ [mesh]) {} dc cmd).dc.lastGeometryCount
      = some (uint (meshes.length + 1)) ∧
    lastBuildGeometryCount (buildBottomAll env (meshes ++ [mesh]) {} dc cmd).cmd
      = some (uint (meshes.length + 1)) := by
  obtain ⟨v1, v2⟩ := buildBottomAll_valid env meshes {} dc cmd hv
  have e := buildBottomAll_append env meshes mesh {} dc cmd v1
  obtain ⟨b1, ⟨g, b2⟩, b3, b4⟩ := buildBottom_appends env
    (buildBottomAll env meshes {} dc cmd).self (buildBottomAll env meshes {} dc cmd).dc
    (buildBottomAll env meshes {} dc cmd).cmd mesh hm
  have hl : (buildBottomAll env meshes {} dc cmd).self.geometries.length = meshes.length := by
    rw [v2]
    simp
  rw [e]
  refine ⟨b1, ?_, ?_, ?_, ?_⟩
  · rw [b2, List.length_append, hl]
    rfl
  · rw [b2]
    exact List.prefix_append _ _
  · rw [b3, hl]
  · rw [b4, hl]

/-- C19 (as stated, refuted): after `2 ^ 32` successful `buildBottom` calls on a new manager
the geometry list has `2 ^ 32` entries, and the structure of the last call is created with
geometry count 0: the count is the list length narrowed to 32 bits. -/
theorem buildBottom_count_wraps :
    (buildBottomAll envSmall (List.replicate (2 ^ 32 - 1) meshTriangle ++ [meshTriangle]) {} {}
      []).fault = none ∧
    (buildBottomAll envSmall (List.replicate (2 ^ 32 - 1) meshTriangle ++ [meshTriangle]) {} {}
      []).self.geometries.length = 2 ^ 32 ∧
    (buildBottomAll envSmall (List.replicate (2 ^ 32 - 1) meshTriangle ++ [meshTriangle]) {} {}
      []).dc.lastGeometryCount = some 0 := by
  obtain ⟨h1, h2, _, h4, _⟩ := buildBottomAll_last envSmall
    (List.replicate (2 ^ 32 - 1) meshTriangle) meshTriangle {} []
    (fun m hm => by rw [List.eq_of_mem_replicate hm]; rfl) rfl
  rw [List.length_replicate] at h2 h4
  exact ⟨h1, h2, h4⟩

/-- C19 (amended): no call of a manager member function removes a geometry descriptor: the
geometry list before the call is a prefix of the list after it. Each successful `buildBottom`
appends one descriptor: after `n` calls with meshes that pass its checks, on a new manager,
the list has `n` entries, it extends the list of the first `n - 1` calls, and, for `n` below
`2 ^ 32`, the structure of the `n`-th call is created and built with geometry count `n`. -/
theorem buildBottom_accumulates (env : Env) (meshes : List Mesh) (mesh : Mesh)
    (dc : DeviceContext) (cmd : CommandBuffer) (call : BVHCall) (self : RaytracingBVH)
    (dcCall : DeviceContext) (cmdCall : CommandBuffer)
    (hv : ∀ m ∈ meshes, m.valid = true) (hm : mesh.valid = true)
    (hn : meshes.length + 1 < 2 ^ 32) :
    self.geometries <+: (call.apply env self dcCall cmdCall).self.geometries ∧
    (buildBottomAll env (meshes ++ [mesh]) {} dc cmd).fault = none ∧
    (buildBottomAll env (meshes ++ [mesh]) {} dc cmd).self.geometries.length = meshes.length + 1 ∧
    (buildBottomAll env meshes {} dc cmd).self.geometries.length = meshes.length ∧
    (buildBottomAll env meshes {} dc cmd).self.geometries <+:
      (buildBottomAll env (meshes ++ [mesh]) {} dc cmd).self.geometries ∧
    (buildBottomAll env (meshes ++ [mesh]) {} dc cmd).dc.lastGeometryCount
      = some (meshes.length + 1) ∧
    lastBuildGeometryCount (buildBottomAll env (meshes ++ [mesh]) {} dc cmd).cmd
      = some (meshes.length + 1) := by
  obtain ⟨h1, h2, h3, h4, h5⟩ := buildBottomAll_last env meshes mesh dc cmd hv hm
  obtain ⟨_, v2⟩ := buildBottomAll_valid env meshes {} dc cmd hv
  rw [uint_of_lt hn] at h4 h5
  refine ⟨apply_keeps_geometries env call self dcCall cmdCall, h1, h2, ?_, h3, h4, h5⟩
  rw [v2]
  simp

/-- C19 (witness): two `buildBottom` calls with `meshTriangle` on a new manager leave two
geometry descriptors, and the second structure is created with geometry count 2. -/
theorem buildBottom_accumulates_witness :
    (∀ m ∈ [meshTriangle], m.valid = true) ∧ meshTriangle.valid = true ∧
    [meshTriangle].length + 1 < 2 ^ 32 ∧
    (buildBottomAll envSmall ([meshTriangle] ++ [meshTriangle]) {} {} []).dc.lastGeometryCount
      = some ([meshTriangle].length + 1) :=
  ⟨fun m hm => by rw [List.eq_of_mem_singleton hm]; rfl, rfl, by decide,
   (buildBottom_accumulates envSmall [meshTriangle] meshTriangle {} [] BVHCall.buildTop {} {} []
      (fun m hm => by rw [List.eq_of_mem_singleton hm]; rfl) rfl (by decide)).2.2.2.2.2.1⟩

end Nei
